import Mathlib

/-!
Payment orchestration of the commerce API (`api/payments.go`).

A shallow embedding of the charge handler `PaymentCreate` and the refund handler
`PaymentRefund`, with the provider registry built by `createPaymentProviders` and the
Stripe provider of `payments/stripe/stripe.go`.

Modelling conventions.

* The database is a value of type `DB`; `a.db.Begin()` takes a working copy, `tx.Rollback()`
  gives back the state before the request and `tx.Commit()` the working copy.
* A handler returns an `Outcome`: the persisted state after the request, the HTTP response,
  the list of calls made to the external provider operation, and how the unit of work ended.
* Go's `(string, error)` results are pairs `String × Option String` (the error text, if any),
  because the handlers read the string also when the error is set.
* `uint64` values are natural numbers; the handlers only compare them, and the decoder
  refuses a number that does not fit in 64 bits.
* `uuid.NewRandom()` is an input of the handler (`newID`), and so is the function
  `strings.ToLower` of the Go standard library (`toLower`).
* The handlers never inspect the result of a write, and a write succeeds unless it inserts
  a row under a primary key that is already taken.
* The mails sent from a detached goroutine after the commit of `PaymentCreate` are not part
  of the outcome.
-/

namespace Gocommerce

/-! ## Data model (package `models`) -/

/-- Modelled from the spec: the constant `models.PaidState`, whose declaration is not among
the sources. It is both the paid `paymentState` of an order and the paid `status` of a
transaction. -/
def PaidState : String := "paid"

/-- Modelled from the spec: the constant `models.PendingState` (transaction status
`pending`), whose declaration is not among the sources. -/
def PendingState : String := "pending"

/-- Modelled from the spec: the constant `models.FailedState` (transaction status
`failed`), whose declaration is not among the sources. -/
def FailedState : String := "failed"

/-- Modelled from the spec: the constant `models.ChargeTransactionType` (transaction type
`charge`), whose declaration is not among the sources. -/
def ChargeTransactionType : String := "charge"

/-- Modelled from the spec: the constant `models.RefundTransactionType` (transaction type
`refund`), whose declaration is not among the sources. -/
def RefundTransactionType : String := "refund"

/-- Modelled from the spec: the record `models.Order`, restricted to the fields of the
data model (`id`, `currency`, `total`, `paymentState`, `paymentProcessor`, `userID`); the
transactions of an order are the rows of the transaction table that carry its id. -/
structure Order where
  ID : String
  Currency : String
  Total : Nat
  PaymentState : String
  PaymentProcessor : String
  UserID : String
deriving DecidableEq, Repr

/-- Modelled from the spec: the record `models.Transaction` with the fields of the data
model. -/
structure Transaction where
  ID : String
  OrderID : String
  UserID : String
  ProcessorID : String
  Amount : Nat
  Currency : String
  FailureCode : String
  FailureDescription : String
  Status : String
  Type_ : String
deriving DecidableEq, Repr

/-- Payload of a hook: the handlers hand either an order or a transaction to
`models.NewHook`. -/
inductive HookPayload where
  | order (o : Order)
  | transaction (t : Transaction)
deriving DecidableEq, Repr

/-- Modelled from the spec: the record `models.Hook`,
`{type, targetURL, userID, secret, payload}`. -/
structure Hook where
  Type_ : String
  TargetURL : String
  UserID : String
  Secret : String
  Payload : HookPayload
deriving DecidableEq, Repr

/-- Modelled from the spec: `models.NewTransaction(order)`, which is not among the sources:
a charge transaction in status pending with a fresh identifier, carrying the amount, the
currency, the id and the user of the order. -/
def NewTransaction (newID : String) (order : Order) : Transaction :=
  { ID := newID
    OrderID := order.ID
    UserID := order.UserID
    ProcessorID := ""
    Amount := order.Total
    Currency := order.Currency
    FailureCode := ""
    FailureDescription := ""
    Status := PendingState
    Type_ := ChargeTransactionType }

/-- Modelled from the spec: `models.NewHook(type, url, userID, secret, payload)`, which is
not among the sources: the hook record with exactly these five components. -/
def NewHook (hookType url userID secret : String) (payload : HookPayload) : Hook :=
  { Type_ := hookType, TargetURL := url, UserID := userID, Secret := secret, Payload := payload }

/-! ## Persistence (gorm) -/

/-- The persisted state: the three tables the handlers touch, and `fault`, the error with
which a read of the database fails (when it fails for another reason than a missing
record). -/
structure DB where
  orders : List Order
  transactions : List Transaction
  hooks : List Hook
  fault : Option String
deriving DecidableEq, Repr

/-- Result of a read by primary key: the record, `RecordNotFound`, or another error. -/
inductive QueryResult (α : Type) where
  | found (a : α)
  | recordNotFound
  | error (msg : String)
deriving DecidableEq, Repr

/-- Read one order by id (`First(order, "id = ?", orderID)` and `Find(order, "id = ?", orderID)`). -/
def DB.firstOrder (db : DB) (orderID : String) : QueryResult Order :=
  match db.fault with
  | some msg => .error msg
  | none =>
    match db.orders.find? (fun o => o.ID = orderID) with
    | some o => .found o
    | none => .recordNotFound

/-- Read one transaction by id (`First(trans)` with the primary key set). -/
def DB.firstTransaction (db : DB) (payID : String) : QueryResult Transaction :=
  match db.fault with
  | some msg => .error msg
  | none =>
    match db.transactions.find? (fun t => t.ID = payID) with
    | some t => .found t
    | none => .recordNotFound

/-- Write `tx.Save(order)`: the row with the id of the order is replaced, and the order is
inserted when there is no such row. -/
def DB.saveOrder (db : DB) (order : Order) : DB :=
  if db.orders.any (fun o => o.ID = order.ID) then
    { db with orders := db.orders.map (fun o => if o.ID = order.ID then order else o) }
  else
    { db with orders := db.orders ++ [order] }

/-- Write `tx.Create(tr)`: the row is inserted; an insert that repeats an existing primary
key fails, and the handlers ignore the failure. -/
def DB.createTransaction (db : DB) (tr : Transaction) : DB :=
  if db.transactions.any (fun t => t.ID = tr.ID) then db
  else { db with transactions := db.transactions ++ [tr] }

/-- Write `tx.Save(m)`: the row with the id of the transaction is replaced, and the
transaction is inserted when there is no such row. -/
def DB.saveTransaction (db : DB) (m : Transaction) : DB :=
  if db.transactions.any (fun t => t.ID = m.ID) then
    { db with transactions := db.transactions.map (fun t => if t.ID = m.ID then m else t) }
  else
    { db with transactions := db.transactions ++ [m] }

/-- Write `tx.Save(hook)`: a new hook has no primary key yet, so it is inserted. -/
def DB.saveHook (db : DB) (hook : Hook) : DB :=
  { db with hooks := db.hooks ++ [hook] }

/-! ## Requests and responses -/

/-- PaymentParams holds the parameters for creating a payment. -/
structure PaymentParams where
  Amount : Nat
  Currency : String
  ProviderType : String
deriving DecidableEq, Repr

/-- The JSON object of a request body: the members the decoders of this program read
(`amount`, `currency` and `provider` of `PaymentParams`, and the member decoded into
`stripeBodyParams.StripeToken`), each of them possibly absent. -/
structure JSONBody where
  amount : Option Nat
  currency : Option String
  provider : Option String
  StripeToken : Option String
deriving DecidableEq, Repr

/-- An inbound request: the body (`Except.error` when it is not a JSON object of the
expected shape), the id in the claims of the token (`none` when there is no token), and the
URL parameters `order_id` and `payment_id`. -/
structure Request where
  Body : Except String JSONBody
  Token : Option String
  order_id : String
  payment_id : String

/-- The decoder `json.NewDecoder(r.Body).Decode(&params)` applied to a `PaymentParams` that
already holds defaults: a member that is present overwrites the field, and a number that
does not fit `uint64` is an error. -/
def decodeParams (init : PaymentParams) (body : Except String JSONBody) :
    Except String PaymentParams :=
  match body with
  | .error err => .error err
  | .ok b =>
    match b.amount with
    | some n =>
      if n < 2 ^ 64 then
        .ok { Amount := n
              Currency := b.currency.getD init.Currency
              ProviderType := b.provider.getD init.ProviderType }
      else
        .error "json: cannot unmarshal number into Go struct field PaymentParams.amount of type uint64"
    | none =>
      .ok { Amount := init.Amount
            Currency := b.currency.getD init.Currency
            ProviderType := b.provider.getD init.ProviderType }

/-- What a handler writes with `sendJSON`: an error object or a transaction. -/
inductive ResponseBody where
  | error (message : String)
  | transaction (t : Transaction)
deriving DecidableEq, Repr

/-- The HTTP answer: status code and JSON body. -/
structure Response where
  Code : Nat
  Body : ResponseBody
deriving DecidableEq, Repr

/-- The structured error `HTTPError{Code, Message}` sent with its own code. -/
def httpError (code : Nat) (message : String) : Response :=
  { Code := code, Body := .error message }

/-- Modelled from the spec: the helper `badRequestError`, which is not among the sources:
the client error of a failed validation, HTTP 400. -/
def badRequestError (message : String) : Response := httpError 400 message

/-- Modelled from the spec: the helper `unauthorizedError`, which is not among the sources:
the client error HTTP 401. -/
def unauthorizedError (message : String) : Response := httpError 401 message

/-- Modelled from the spec: the helper `notFoundError`, which is not among the sources:
HTTP 404. -/
def notFoundError (message : String) : Response := httpError 404 message

/-- Modelled from the spec: the helper `internalServerError`, which is not among the
sources: the server-side error HTTP 500. -/
def internalServerError (message : String) : Response := httpError 500 message

/-- Success answer `sendJSON(w, http.StatusOK, tr)`. -/
def sendJSON (code : Nat) (t : Transaction) : Response :=
  { Code := code, Body := .transaction t }

/-- A client error is an answer in the 4xx range. -/
def Response.isClientError (r : Response) : Prop := 400 ≤ r.Code ∧ r.Code < 500

/-- A server-side error is an answer in the 5xx range. -/
def Response.isServerError (r : Response) : Prop := 500 ≤ r.Code ∧ r.Code < 600

instance (r : Response) : Decidable r.isClientError := by
  unfold Response.isClientError; infer_instance

instance (r : Response) : Decidable r.isServerError := by
  unfold Response.isServerError; infer_instance

/-! ## Providers (package `payments`) -/

/-- Charger wraps the Charge method which creates new payments with the provider:
amount and currency to processor id and error. -/
abbrev Charger := Nat → String → String × Option String

/-- Refunder wraps the Refund method which refunds payments with the provider. The handler
calls it with the processor id, the amount and the currency. -/
abbrev Refunder := String → Nat → String → String × Option String

/-- Provider represents a payment provider that can charge and refund payments. -/
structure Provider where
  Name : String
  NewCharger : Request → Except String Charger
  NewRefunder : Request → Except String Refunder

/-- The operation of a provider call with its arguments. -/
inductive ProviderOp where
  | charge (amount : Nat) (currency : String)
  | refund (transactionID : String) (amount : Nat) (currency : String)
deriving DecidableEq, Repr

/-- A call of an external provider operation as the handler made it: the `Name()` of the
provider, the operation with its arguments, and what the call returned (the id and the
error, if any). -/
structure ProviderCall where
  provider : String
  op : ProviderOp
  result : String × Option String
deriving DecidableEq, Repr

/-- How the unit of work of a request ended. -/
inductive UnitOfWork where
  | notOpened
  | rolledBack
  | committed
deriving DecidableEq, Repr

/-- The observable result of a handler. -/
structure Outcome where
  db : DB
  response : Response
  calls : List ProviderCall
  tx : UnitOfWork
deriving DecidableEq, Repr

/-- The webhook targets `config.Webhooks` the two handlers read. -/
structure Webhooks where
  Payment : String
  Refund : String
  Secret : String
deriving DecidableEq, Repr

/-- The Stripe part `c.Payment.Stripe` of the configuration. -/
structure StripeSettings where
  Enabled : Bool
  SecretKey : String
deriving DecidableEq, Repr

/-- The PayPal part `c.Payment.PayPal` of the configuration. -/
structure PayPalSettings where
  Enabled : Bool
  Env : String
  ClientID : String
  Secret : String
deriving DecidableEq, Repr

/-- The part `c.Payment` of the configuration. -/
structure PaymentSettings where
  Stripe : StripeSettings
  PayPal : PayPalSettings
deriving DecidableEq, Repr

/-- The fields of `conf.Configuration` that the handlers and `createPaymentProviders`
read. -/
structure Configuration where
  Payment : PaymentSettings
  Webhooks : Webhooks
deriving DecidableEq, Repr

/-- Lower-casing of the ASCII letters. It coincides with `strings.ToLower` on strings of
ASCII characters and is used only for the concrete requests below, whose provider names
are ASCII; the handler takes the lower-casing function as a parameter. -/
def asciiToLower (s : String) : String := String.mk (s.data.map Char.toLower)

/-! ## The charge handler -/

/-- The check `verifyAmount`: the error text when the total of the order differs from the
amount to charge, and `none` (Go's `nil`) when they are equal. -/
def verifyAmount (order : Order) (amount : Nat) : Option String :=
  if order.Total ≠ amount then
    some ("Amount calculated for order didn't match amount to charge. "
      ++ toString order.Total ++ " vs " ++ toString amount)
  else
    none

/-- PaymentCreate is the endpoint for creating a payment for an order. The function
`strings.ToLower` of the Go standard library, applied to the provider name of the request,
is the parameter `toLower`. -/
def PaymentCreate (toLower : String → String) (config : Configuration)
    (providers : String → Option Provider) (newID : String) (db : DB) (r : Request) :
    Outcome :=
  match decodeParams { Amount := 0, Currency := "USD", ProviderType := "" } r.Body with
  | .error err =>
    { db := db, response := badRequestError ("Could not read params: " ++ err),
      calls := [], tx := .notOpened }
  | .ok params =>
  if params.ProviderType = "" then
    { db := db
      response := badRequestError "Creating a payment requires specifying a 'provider'"
      calls := [], tx := .notOpened }
  else
  match providers (toLower params.ProviderType) with
  | none =>
    { db := db
      response := badRequestError
        ("Payment provider '" ++ params.ProviderType ++ "' not configured")
      calls := [], tx := .notOpened }
  | some provider =>
  match provider.NewCharger r with
  | .error err =>
    { db := db, response := badRequestError ("Error creating payment provider: " ++ err),
      calls := [], tx := .notOpened }
  | .ok charge =>
  let orderID := r.order_id
  let tx := db
  match tx.firstOrder orderID with
  | .recordNotFound =>
    { db := db, response := notFoundError "No order with this ID found",
      calls := [], tx := .rolledBack }
  | .error msg =>
    { db := db, response := internalServerError ("Error during database query: " ++ msg),
      calls := [], tx := .rolledBack }
  | .found order =>
  if order.PaymentState = PaidState then
    { db := db, response := badRequestError "This order has already been paid",
      calls := [], tx := .rolledBack }
  else
  if order.Currency ≠ params.Currency then
    { db := db
      response := badRequestError
        ("Currencies doesn't match - " ++ order.Currency ++ " vs " ++ params.Currency)
      calls := [], tx := .rolledBack }
  else
  let ownership : Except Response (Order × DB) :=
    if order.UserID = "" then
      match r.Token with
      | some claimsID =>
        let order := { order with UserID := claimsID }
        .ok (order, tx.saveOrder order)
      | none => .ok (order, tx)
    else
      match r.Token with
      | none => .error (unauthorizedError "You must be logged in to pay for this order")
      | some claimsID =>
        if order.UserID ≠ claimsID then
          .error (unauthorizedError "You must be logged in to pay for this order")
        else
          .ok (order, tx)
  match ownership with
  | .error rsp => { db := db, response := rsp, calls := [], tx := .rolledBack }
  | .ok (order, tx) =>
  match verifyAmount order params.Amount with
  | some err =>
    { db := db
      response := internalServerError
        ("We failed to authorize the amount for this order: " ++ err)
      calls := [], tx := .rolledBack }
  | none =>
  let tr := NewTransaction newID order
  let order := { order with PaymentProcessor := provider.Name }
  let result := charge params.Amount params.Currency
  let call : ProviderCall :=
    { provider := provider.Name, op := .charge params.Amount params.Currency, result := result }
  let tr := { tr with ProcessorID := result.1 }
  match result.2 with
  | some err =>
    let tr := { tr with FailureCode := "500", FailureDescription := err, Status := "failed" }
    let tx := tx.createTransaction tr
    { db := tx
      response := internalServerError ("There was an error charging your card: " ++ err)
      calls := [call], tx := .committed }
  | none =>
    let tr := { tr with Status := "pending" }
    let tx := tx.createTransaction tr
    let order := { order with PaymentState := PaidState }
    let tx := tx.saveOrder order
    let tx :=
      if config.Webhooks.Payment ≠ "" then
        tx.saveHook
          (NewHook "payment" config.Webhooks.Payment order.UserID config.Webhooks.Secret
            (.order order))
      else tx
    { db := tx, response := sendJSON 200 tr, calls := [call], tx := .committed }

/-! ## The refund handler -/

/-- The helper `getTransaction`: the transaction named by the URL parameter `payment_id`,
or the HTTP error to send. -/
def getTransaction (db : DB) (r : Request) : Except Response Transaction :=
  let payID := r.payment_id
  match db.firstTransaction payID with
  | .found txn => .ok txn
  | .recordNotFound => .error (httpError 404 "Transaction not found")
  | .error _ => .error (httpError 500 "Error while querying for transactions")

/-- The helper `queryForOrder`: the order with the given id, or the HTTP error to send. -/
def queryForOrder (db : DB) (orderID : String) : Except Response Order :=
  match db.firstOrder orderID with
  | .found order => .ok order
  | .recordNotFound => .error (httpError 404 "Order not found")
  | .error _ => .error (httpError 500 "Error while querying for order")

/-- PaymentRefund refunds a transaction for a specific amount. This allows partial
refunds if desired. -/
def PaymentRefund (config : Configuration) (providers : String → Option Provider)
    (newID : String) (db : DB) (r : Request) : Outcome :=
  match decodeParams { Amount := 0, Currency := "USD", ProviderType := "" } r.Body with
  | .error err =>
    { db := db, response := badRequestError ("Could not read params: " ++ err),
      calls := [], tx := .notOpened }
  | .ok params =>
  match getTransaction db r with
  | .error httpErr => { db := db, response := httpErr, calls := [], tx := .notOpened }
  | .ok txn =>
  if txn.Currency ≠ params.Currency then
    { db := db
      response := badRequestError
        ("Currencies do not match - " ++ txn.Currency ++ " vs " ++ params.Currency)
      calls := [], tx := .notOpened }
  else
  if params.Amount ≤ 0 ∨ params.Amount > txn.Amount then
    { db := db
      response := badRequestError
        "The balance of the refund must be between 0 and the total amount"
      calls := [], tx := .notOpened }
  else
  if txn.FailureCode ≠ "" then
    { db := db, response := badRequestError "Can't refund a failed transaction",
      calls := [], tx := .notOpened }
  else
  if txn.Status ≠ PaidState then
    { db := db
      response := badRequestError "Can't refund a transaction that hasn't been paid"
      calls := [], tx := .notOpened }
  else
  match queryForOrder db txn.OrderID with
  | .error httpErr => { db := db, response := httpErr, calls := [], tx := .notOpened }
  | .ok order =>
  if order.PaymentProcessor = "" then
    { db := db
      response := internalServerError "Order does not specify a payment provider"
      calls := [], tx := .notOpened }
  else
  match providers order.PaymentProcessor with
  | none =>
    { db := db
      response := badRequestError
        ("Payment provider '" ++ order.PaymentProcessor ++ "' not configured")
      calls := [], tx := .notOpened }
  | some provider =>
  match provider.NewRefunder r with
  | .error err =>
    { db := db, response := badRequestError ("Error creating payment provider: " ++ err),
      calls := [], tx := .notOpened }
  | .ok refund =>
  let m : Transaction :=
    { ID := newID
      OrderID := txn.OrderID
      UserID := txn.UserID
      ProcessorID := ""
      Amount := params.Amount
      Currency := params.Currency
      FailureCode := ""
      FailureDescription := ""
      Status := PendingState
      Type_ := RefundTransactionType }
  let tx := db
  let tx := tx.createTransaction m
  let provID := provider.Name
  let result := refund txn.ProcessorID params.Amount params.Currency
  let call : ProviderCall :=
    { provider := provID, op := .refund txn.ProcessorID params.Amount params.Currency,
      result := result }
  let m :=
    match result.2 with
    | some err =>
      { m with FailureCode := "500", FailureDescription := err, Status := FailedState }
    | none => { m with ProcessorID := result.1, Status := PaidState }
  let tx := tx.saveTransaction m
  let tx :=
    if config.Webhooks.Refund ≠ "" then
      tx.saveHook
        (NewHook "refund" config.Webhooks.Refund m.UserID config.Webhooks.Secret
          (.transaction m))
    else tx
  { db := tx, response := sendJSON 200 m, calls := [call], tx := .committed }

/-! ## The Stripe provider and the registry -/

/-- The two operations of the Stripe client the provider uses, `Charges.New` (amount, source
token, currency) and `Refunds.New` (charge, amount): the id of the created object, or the
error of the call. -/
structure StripeClient where
  ChargesNew : Nat → String → String → Except String String
  RefundsNew : String → Nat → Except String String

/-- The name `payments.StripeProvider`. -/
def StripeProvider : String := "stripe"

/-- The name `payments.PayPalProvider`. -/
def PayPalProvider : String := "paypal"

namespace stripe

/-- Charge of the Stripe request handler built with a source token. -/
def Charge (client : StripeClient) (token : String) : Charger :=
  fun amount currency =>
    match client.ChargesNew amount token currency with
    | .error err => ("", some err)
    | .ok id => (id, none)

/-- Refund of the Stripe request handler; the currency the handler passes is not used. -/
def Refund (client : StripeClient) : Refunder :=
  fun transactionID amount _ =>
    match client.RefundsNew transactionID amount with
    | .error err => ("", some err)
    | .ok id => (id, none)

/-- NewCharger of the Stripe provider: it decodes the body a second time and requires a
token. -/
def NewCharger (client : StripeClient) (r : Request) : Except String Charger :=
  match r.Body with
  | .error err => .error err
  | .ok bp =>
    if bp.StripeToken.getD "" = "" then
      .error "Stripe requires a stripe_token for creating a payment"
    else
      .ok (Charge client (bp.StripeToken.getD ""))

/-- NewRefunder of the Stripe provider: it never fails and does not read the request. -/
def NewRefunder (client : StripeClient) (_ : Request) : Except String Refunder :=
  .ok (Refund client)

/-- NewPaymentProvider of package `stripe`; `newClient` is the client initialised with a
secret key. -/
def NewPaymentProvider (newClient : String → StripeClient) (secretKey : String) :
    Except String Provider :=
  if secretKey = "" then
    .error "Stripe configuration missing secret_key"
  else
    .ok { Name := StripeProvider
          NewCharger := NewCharger (newClient secretKey)
          NewRefunder := NewRefunder (newClient secretKey) }

end stripe

/-- The assignment `provs[key] = p` on a Go map. -/
def mapSet (provs : String → Option Provider) (key : String) (p : Provider) :
    String → Option Provider :=
  fun k => if k = key then some p else provs k

/-- createPaymentProviders creates instance(s) of Provider based on the configuration
provided. The constructor of the PayPal provider, `paypal.NewPaymentProvider`, is a
parameter. -/
def createPaymentProviders (newClient : String → StripeClient)
    (paypalNew : PayPalSettings → Except String Provider) (c : Configuration) :
    Except String (String → Option Provider) :=
  let provs : String → Option Provider := fun _ => none
  let step1 : Except String (String → Option Provider) :=
    if c.Payment.Stripe.Enabled then
      match stripe.NewPaymentProvider newClient c.Payment.Stripe.SecretKey with
      | .error err => .error err
      | .ok p => .ok (mapSet provs p.Name p)
    else .ok provs
  match step1 with
  | .error err => .error err
  | .ok provs =>
    if c.Payment.PayPal.Enabled then
      match paypalNew c.Payment.PayPal with
      | .error err => .error err
      | .ok p => .ok (mapSet provs p.Name p)
    else .ok provs

/-! ## Specification vocabulary -/

/-- The guards of the charge flow in the words of the specification: the order exists, it
is not paid, the currencies agree, the caller owns the order or the order is anonymous, and
the amount is the total of the order. -/
def ChargeGuards (db : DB) (r : Request) (params : PaymentParams) (order : Order) : Prop :=
  db.firstOrder r.order_id = .found order ∧
  order.PaymentState ≠ PaidState ∧
  params.Currency = order.Currency ∧
  (order.UserID = "" ∨ r.Token = some order.UserID) ∧
  params.Amount = order.Total

instance (db : DB) (r : Request) (params : PaymentParams) (order : Order) :
    Decidable (ChargeGuards db r params order) := by
  unfold ChargeGuards; infer_instance

/-- The persisted order with a given id. -/
def DB.order? (db : DB) (orderID : String) : Option Order :=
  db.orders.find? (fun o => o.ID = orderID)

/-- The order in memory after the ownership guard of `PaymentCreate` has passed: an
anonymous order adopts the identity of the caller. -/
def adoptedOrder (order : Order) (token : Option String) : Order :=
  if order.UserID = "" then
    match token with
    | some claimsID => { order with UserID := claimsID }
    | none => order
  else order

/-- The unit of work after the ownership guard of `PaymentCreate` has passed. -/
def adoptedDB (db : DB) (order : Order) (token : Option String) : DB :=
  if order.UserID = "" then
    match token with
    | some claimsID => db.saveOrder { order with UserID := claimsID }
    | none => db
  else db

/-- The transition of `PaymentCreate` once every guard has passed (from
`models.NewTransaction(order)` to the answer), as a function of the order in memory and of
the open unit of work. -/
def chargeOutcome (config : Configuration) (provider : Provider) (charge : Charger)
    (params : PaymentParams) (newID : String) (order : Order) (tx : DB) : Outcome :=
  let result := charge params.Amount params.Currency
  let call : ProviderCall :=
    { provider := provider.Name, op := .charge params.Amount params.Currency, result := result }
  match result.2 with
  | some err =>
    { db := tx.createTransaction
        { NewTransaction newID order with
          ProcessorID := result.1, FailureCode := "500", FailureDescription := err,
          Status := "failed" }
      response := internalServerError ("There was an error charging your card: " ++ err)
      calls := [call], tx := .committed }
  | none =>
    let paid : Order :=
      { order with PaymentProcessor := provider.Name, PaymentState := PaidState }
    let tx1 := (tx.createTransaction
        { NewTransaction newID order with ProcessorID := result.1, Status := "pending" }).saveOrder paid
    { db :=
        if config.Webhooks.Payment ≠ "" then
          tx1.saveHook
            (NewHook "payment" config.Webhooks.Payment paid.UserID config.Webhooks.Secret
              (.order paid))
        else tx1
      response := sendJSON 200
        { NewTransaction newID order with ProcessorID := result.1, Status := "pending" }
      calls := [call], tx := .committed }


/-- The guards of the refund flow in the words of the specification: same currency, an
amount that is positive and at most the amount of the original transaction, no failure code
on the original transaction, and the original transaction paid. -/
def RefundGuards (params : PaymentParams) (txn : Transaction) : Prop :=
  params.Currency = txn.Currency ∧
  0 < params.Amount ∧ params.Amount ≤ txn.Amount ∧
  txn.FailureCode = "" ∧
  txn.Status = PaidState

instance (params : PaymentParams) (txn : Transaction) : Decidable (RefundGuards params txn) := by
  unfold RefundGuards; infer_instance

/-- The refund transaction of `PaymentRefund` after the provider call has returned
`result`. -/
def refundTransaction (params : PaymentParams) (newID : String) (txn : Transaction)
    (result : String × Option String) : Transaction :=
  match result.2 with
  | some err =>
    { ID := newID, OrderID := txn.OrderID, UserID := txn.UserID, ProcessorID := "",
      Amount := params.Amount, Currency := params.Currency, FailureCode := "500",
      FailureDescription := err, Status := FailedState, Type_ := RefundTransactionType }
  | none =>
    { ID := newID, OrderID := txn.OrderID, UserID := txn.UserID, ProcessorID := result.1,
      Amount := params.Amount, Currency := params.Currency, FailureCode := "",
      FailureDescription := "", Status := PaidState, Type_ := RefundTransactionType }

/-- The transition of `PaymentRefund` once every guard has passed and the refunder is
built (from the creation of the pending refund transaction to the answer). -/
def refundOutcome (config : Configuration) (provider : Provider) (refund : Refunder)
    (params : PaymentParams) (newID : String) (txn : Transaction) (db : DB) : Outcome :=
  let result := refund txn.ProcessorID params.Amount params.Currency
  let m := refundTransaction params newID txn result
  let tx := (db.createTransaction
    { ID := newID, OrderID := txn.OrderID, UserID := txn.UserID, ProcessorID := "",
      Amount := params.Amount, Currency := params.Currency, FailureCode := "",
      FailureDescription := "", Status := PendingState,
      Type_ := RefundTransactionType }).saveTransaction m
  { db :=
      if config.Webhooks.Refund ≠ "" then
        tx.saveHook
          (NewHook "refund" config.Webhooks.Refund m.UserID config.Webhooks.Secret
            (.transaction m))
      else tx
    response := sendJSON 200 m
    calls := [{ provider := provider.Name
                op := .refund txn.ProcessorID params.Amount params.Currency
                result := result }]
    tx := .committed }

/-! ## Concrete inputs -/

/-- A provider whose charge and refund succeed. -/
def acceptingProvider : Provider :=
  { Name := "stripe"
    NewCharger := fun _ => .ok (fun _ _ => ("ch_1", none))
    NewRefunder := fun _ => .ok (fun _ _ _ => ("re_1", none)) }

/-- A provider whose charge and refund fail. -/
def decliningProvider : Provider :=
  { Name := "stripe"
    NewCharger := fun _ => .ok (fun _ _ => ("", some "card declined"))
    NewRefunder := fun _ => .ok (fun _ _ _ => ("", some "refund refused")) }

/-- The registry that holds one provider under its name. -/
def registryOf (p : Provider) : String → Option Provider := mapSet (fun _ => none) p.Name p

/-- A configuration with Stripe enabled and no webhook target. -/
def exampleConfig : Configuration :=
  { Payment :=
      { Stripe := { Enabled := true, SecretKey := "sk_test" }
        PayPal := { Enabled := false, Env := "", ClientID := "", Secret := "" } }
    Webhooks := { Payment := "", Refund := "", Secret := "" } }

/-- An order of 100 USD of user `u1` that is not paid. -/
def unpaidOrder : Order :=
  { ID := "o1", Currency := "USD", Total := 100, PaymentState := "pending",
    PaymentProcessor := "", UserID := "u1" }

/-- The same order once paid through the provider `stripe`. -/
def paidOrder : Order :=
  { unpaidOrder with PaymentState := PaidState, PaymentProcessor := "stripe" }

/-- A database that holds the unpaid order and no transaction. -/
def unpaidDB : DB := { orders := [unpaidOrder], transactions := [], hooks := [], fault := none }

/-- A database that holds the paid order and no transaction. -/
def paidDB : DB := { orders := [paidOrder], transactions := [], hooks := [], fault := none }

/-- A request of user `u1` on order `o1` and payment `t1` for the given amount in the
default currency, naming the provider `Stripe`. -/
def chargeRequest (amount : Nat) : Request :=
  { Body := .ok { amount := some amount, currency := none, provider := some "Stripe",
                  StripeToken := some "tok_1" }
    Token := some "u1", order_id := "o1", payment_id := "t1" }

/-- The charge of 100 USD on order `o1`, recorded as paid with processor id `ch_1`. -/
def paidCharge : Transaction :=
  { ID := "t1", OrderID := "o1", UserID := "u1", ProcessorID := "ch_1", Amount := 100,
    Currency := "USD", FailureCode := "", FailureDescription := "", Status := PaidState,
    Type_ := ChargeTransactionType }

/-- A database that holds the paid order and its paid charge. -/
def chargedDB : DB :=
  { orders := [paidOrder], transactions := [paidCharge], hooks := [], fault := none }

/-- A refund request on payment `t1` for the given amount in the default currency. -/
def refundRequest (amount : Nat) : Request :=
  { Body := .ok { amount := some amount, currency := none, provider := none,
                  StripeToken := none }
    Token := some "admin", order_id := "", payment_id := "t1" }

/-- A full refund of the charge `t1` recorded earlier. -/
def earlierRefund : Transaction :=
  { ID := "t0", OrderID := "o1", UserID := "u1", ProcessorID := "re_0", Amount := 100,
    Currency := "USD", FailureCode := "", FailureDescription := "", Status := PaidState,
    Type_ := RefundTransactionType }

/-- The request with the member `provider` of its body replaced by another value (or
removed). -/
def Request.withProvider (r : Request) (provider : Option String) : Request :=
  match r.Body with
  | .ok b => { r with Body := .ok { b with provider := provider } }
  | .error _ => r

/-- A Stripe client whose calls succeed. -/
def exampleClient : StripeClient :=
  { ChargesNew := fun _ _ _ => .ok "ch_1", RefundsNew := fun _ _ => .ok "re_1" }

/-- The Stripe provider built on `exampleClient`. -/
def exampleStripe : Provider :=
  { Name := StripeProvider
    NewCharger := stripe.NewCharger exampleClient
    NewRefunder := stripe.NewRefunder exampleClient }

/-- The registry `createPaymentProviders` builds for `exampleConfig`: Stripe only. -/
def exampleRegistry : String → Option Provider :=
  mapSet (fun _ => none) StripeProvider exampleStripe

/-- The configuration `exampleConfig` with a webhook target for payments and for refunds. -/
def hookConfig : Configuration :=
  { exampleConfig with
    Webhooks := { Payment := "https://hooks.example/payment"
                  Refund := "https://hooks.example/refund"
                  Secret := "s3cret" } }

/-- The order `o1` without an owner. -/
def anonymousOrder : Order := { unpaidOrder with UserID := "" }

/-- A database that holds the anonymous order and no transaction. -/
def anonymousDB : DB :=
  { orders := [anonymousOrder], transactions := [], hooks := [], fault := none }

/-- The charge request of 100 on `o1` sent without a token. -/
def anonymousRequest : Request := { chargeRequest 100 with Token := none }

/-! ## The pricing engine (package `calculator`)

Only the tests of the package are among the sources (`calculator/calculator_test.go`); the
engine itself is modelled from the specification, and the test doubles `TestItem` and
`TestCoupon` are taken from the test file. Amounts are `uint64`: the fields of the result
are reduced modulo `2 ^ 64`. -/

namespace calculator

/-- Modelled from the spec: the tax rule `Tax` of package `calculator`, which is not among
the sources: a percentage with the product types and the countries it applies to. -/
structure Tax where
  Percentage : Nat
  ProductTypes : List String
  Countries : List String
deriving DecidableEq, Repr

/-- Modelled from the spec: the record `Settings` of package `calculator`, which is not
among the sources: whether prices are tax-inclusive, and the ordered list of tax rules. -/
structure Settings where
  PricesIncludeTaxes : Bool
  Taxes : List Tax
deriving DecidableEq, Repr

/-- The interface `Item` as the test double `TestItem` implements it: price in the lowest
unit, product type, fixed VAT and taxable sub-items. -/
inductive Item where
  | mk (price : Nat) (itemType : String) (vat : Nat) (items : List Item)

/-- PriceInLowestUnit of `TestItem`. -/
def Item.PriceInLowestUnit : Item → Nat
  | .mk price _ _ _ => price

/-- ProductType of `TestItem`. -/
def Item.ProductType : Item → String
  | .mk _ itemType _ _ => itemType

/-- FixedVAT of `TestItem`. -/
def Item.FixedVAT : Item → Nat
  | .mk _ _ vat _ => vat

/-- TaxableItems of `TestItem`. -/
def Item.TaxableItems : Item → List Item
  | .mk _ _ _ items => items

/-- The interface `Coupon`, by its four methods. -/
structure Coupon where
  ValidForType : String → Bool
  ValidForPrice : String → Nat → Bool
  PercentageDiscount : Nat
  FixedDiscount : Nat

/-- The test double `TestCoupon`. -/
structure TestCoupon where
  itemType : String
  moreThan : Nat
  percentage : Nat
  fixed : Nat
deriving DecidableEq, Repr

/-- The methods of `TestCoupon`: valid for its own product type, and for a price above
`moreThan` when that is set. -/
def TestCoupon.toCoupon (c : TestCoupon) : Coupon :=
  { ValidForType := fun productType => c.itemType == productType
    ValidForPrice := fun _ price => c.moreThan == 0 || decide (price > c.moreThan)
    PercentageDiscount := c.percentage
    FixedDiscount := c.fixed }

/-- Modelled from the spec: the result `Price` of package `calculator`, which is not among
the sources: subtotal, discount, taxes and total in the lowest currency unit. -/
structure Price where
  Subtotal : Nat
  Discount : Nat
  Taxes : Nat
  Total : Nat
deriving DecidableEq, Repr

/-- Reduction of an amount to `uint64`. -/
def wrap64 (n : Nat) : Nat := n % 2 ^ 64

/-- Subtraction of `uint64` amounts, which wraps around below zero. -/
def sub64 (a b : Nat) : Nat := (a % 2 ^ 64 + (2 ^ 64 - b % 2 ^ 64)) % 2 ^ 64

/-- Modelled from the spec: the rounding of the quotient `a / b` to the nearest integer
currency unit, ties away from zero; the rounding helper of package `calculator` is not
among the sources. -/
def roundDiv (a b : Nat) : Nat := (2 * a + b) / (2 * b)

/-- Modelled from the spec: whether a tax rule matches both the product type of the item
and the country of the request. -/
def Tax.AppliesTo (t : Tax) (country productType : String) : Bool :=
  t.ProductTypes.contains productType && t.Countries.contains country

/-- Modelled from the spec: the rate applied to an item without sub-items, which is its
fixed VAT if non-zero, otherwise the percentage of the first matching tax rule, otherwise
0; absent settings give 0. -/
def taxRate (settings : Option Settings) (country : String) (productType : String)
    (fixedVAT : Nat) : Nat :=
  if fixedVAT ≠ 0 then fixedVAT
  else
    match settings with
    | none => 0
    | some s =>
      match s.Taxes.find? (fun t => t.AppliesTo country productType) with
      | some t => t.Percentage
      | none => 0

/-- Modelled from the spec: whether prices are tax-inclusive; absent settings are
tax-exclusive. -/
def includeTaxes (settings : Option Settings) : Bool :=
  match settings with
  | some s => s.PricesIncludeTaxes
  | none => false

/-- Modelled from the spec: the tax of a price at a rate, `round(price × rate / 100)` for
tax-exclusive prices and `price − round(price / (1 + rate/100))` for tax-inclusive
prices. -/
def rawTax (inclusive : Bool) (price rate : Nat) : Nat :=
  if inclusive then price - roundDiv (100 * price) (100 + rate)
  else roundDiv (price * rate) 100

mutual
/-- Modelled from the spec: `computeTax(i, country, settings)`, which is the sum over the
sub-items when there are any (recursively), and otherwise the tax of the price of the item
at its rate. -/
def computeTax (settings : Option Settings) (country : String) : Item → Nat
  | .mk price itemType vat [] =>
    rawTax (includeTaxes settings) price (taxRate settings country itemType vat)
  | .mk _ _ _ (child :: children) => computeTaxList settings country (child :: children)
/-- Modelled from the spec: the sum of `computeTax` over a sequence of items. -/
def computeTaxList (settings : Option Settings) (country : String) : List Item → Nat
  | [] => 0
  | i :: rest => computeTax settings country i + computeTaxList settings country rest
end

/-- Modelled from the spec: the contribution of a top-level item to the subtotal, its price
less its tax when prices are tax-inclusive and its price otherwise. -/
def subtotalContribution (settings : Option Settings) (country : String) (i : Item) : Nat :=
  if includeTaxes settings then sub64 i.PriceInLowestUnit (computeTax settings country i)
  else i.PriceInLowestUnit

/-- Modelled from the spec: whether the coupon is valid for the product type and for the
price of an item in the currency of the request. -/
def couponApplies (currency : String) (coupon : Coupon) (i : Item) : Bool :=
  coupon.ValidForType i.ProductType && coupon.ValidForPrice currency i.PriceInLowestUnit

/-- Modelled from the spec: the percentage part of the discount, the sum over the top-level
items the coupon applies to of `round(price × percentageDiscount / 100)`. -/
def percentageDiscount (currency : String) (coupon : Option Coupon) (items : List Item) :
    Nat :=
  match coupon with
  | none => 0
  | some c =>
    ((items.filter (couponApplies currency c)).map
      (fun i => roundDiv (i.PriceInLowestUnit * c.PercentageDiscount) 100)).sum

/-- Modelled from the spec: the fixed part of the discount, added once when the coupon
applies to at least one item. -/
def fixedDiscount (currency : String) (coupon : Option Coupon) (items : List Item) : Nat :=
  match coupon with
  | none => 0
  | some c => if items.any (couponApplies currency c) then c.FixedDiscount else 0

/-- Modelled from the spec: `CalculatePrice(settings, country, currency, coupon, items)` of
package `calculator`, which is not among the sources. -/
def CalculatePrice (settings : Option Settings) (country currency : String)
    (coupon : Option Coupon) (items : List Item) : Price :=
  let subtotal := wrap64 (items.map (subtotalContribution settings country)).sum
  let taxes := wrap64 (items.map (computeTax settings country)).sum
  let discount :=
    wrap64 (percentageDiscount currency coupon items + fixedDiscount currency coupon items)
  { Subtotal := subtotal
    Discount := discount
    Taxes := taxes
    Total := sub64 (wrap64 (subtotal + taxes)) discount }

end calculator
/-! ## Lemmas on the persistence layer -/

theorem firstOrder_found {db : DB} {id : String} {o : Order}
    (h : db.firstOrder id = .found o) : db.fault = none ∧ db.order? id = some o := by
  unfold DB.firstOrder at h
  unfold DB.order?
  cases hf : db.fault with
  | some msg => simp [hf] at h
  | none =>
    simp only [hf] at h
    cases hq : db.orders.find? (fun o => o.ID = id) with
    | none => simp [hq] at h
    | some o2 =>
      simp only [hq, QueryResult.found.injEq] at h
      exact ⟨rfl, by rw [h]⟩

theorem order?_id {db : DB} {id : String} {o : Order} (h : db.order? id = some o) :
    o.ID = id := by
  unfold DB.order? at h
  simpa using List.find?_some h

theorem find?_replace_same (l : List Order) (id : String) (o o' : Order)
    (hid : o'.ID = id) (h : l.find? (fun x => x.ID = id) = some o) :
    (l.map (fun x => if x.ID = o'.ID then o' else x)).find? (fun x => x.ID = id) = some o' := by
  induction l with
  | nil => simp at h
  | cons a t ih =>
    rw [List.map_cons, List.find?_cons]
    by_cases ha : a.ID = id
    · have ha2 : a.ID = o'.ID := by rw [ha, hid]
      simp only [ha2, if_true, hid, decide_True]
    · have ha2 : ¬ a.ID = o'.ID := by rw [hid]; exact ha
      have h' : t.find? (fun x => x.ID = id) = some o := by
        rw [List.find?_cons] at h
        simpa only [ha, decide_False] using h
      simp only [ha2, if_false, ha, decide_False]
      exact ih h'

theorem find?_replace_other (l : List Order) (id : String) (o' : Order) (hid : o'.ID ≠ id) :
    (l.map (fun x => if x.ID = o'.ID then o' else x)).find? (fun x => x.ID = id)
      = l.find? (fun x => x.ID = id) := by
  induction l with
  | nil => rfl
  | cons a t ih =>
    rw [List.map_cons, List.find?_cons, List.find?_cons, ih]
    by_cases ha : a.ID = o'.ID
    · have ha2 : ¬ a.ID = id := fun h => hid (ha ▸ h)
      simp only [ha, if_true, hid, decide_False, ha2]
    · simp only [ha, if_false]

theorem order?_saveOrder_same (db : DB) (id : String) (o o' : Order) (hid : o'.ID = id)
    (h : db.order? id = some o) : (db.saveOrder o').order? id = some o' := by
  have hmem : db.orders.any (fun x => x.ID = o'.ID) = true := by
    unfold DB.order? at h
    have h1 := List.mem_of_find?_eq_some h
    have h2 := order?_id h
    simp only [List.any_eq_true, decide_eq_true_eq]
    exact ⟨o, h1, by rw [h2, hid]⟩
  unfold DB.saveOrder DB.order?
  simp only [hmem, if_true]
  exact find?_replace_same db.orders id o o' hid h

theorem order?_saveOrder_other (db : DB) (id : String) (o' : Order) (hid : o'.ID ≠ id) :
    (db.saveOrder o').order? id = db.order? id := by
  unfold DB.saveOrder DB.order?
  split
  · exact find?_replace_other db.orders id o' hid
  · simp [List.find?_append, hid]

theorem order?_saveOrder_proj {β : Type} (f : Order → β) (db : DB) (id0 : String)
    (o o' : Order) (hid : o'.ID = id0) (h : db.order? id0 = some o) (hf : f o' = f o)
    (id : String) : ((db.saveOrder o').order? id).map f = (db.order? id).map f := by
  by_cases hc : id = id0
  · subst hc
    rw [order?_saveOrder_same db id o o' hid h, h]
    simp [hf]
  · rw [order?_saveOrder_other db id o' (by rw [hid]; exact fun h => hc h.symm)]

theorem order?_createTransaction (db : DB) (tr : Transaction) (id : String) :
    (db.createTransaction tr).order? id = db.order? id := by
  unfold DB.createTransaction DB.order?
  split <;> rfl

theorem order?_saveHook (db : DB) (hook : Hook) (id : String) :
    (db.saveHook hook).order? id = db.order? id := rfl


/-! ## Lemmas on the charge handler -/

theorem PaymentCreate_accepted (toLower : String → String) (config : Configuration) (providers : String → Option Provider)
    (newID : String) (db : DB) (r : Request) (params : PaymentParams) (provider : Provider)
    (charge : Charger) (order : Order)
    (hdec : decodeParams { Amount := 0, Currency := "USD", ProviderType := "" } r.Body
      = .ok params)
    (hpt : params.ProviderType ≠ "")
    (hreg : providers (toLower params.ProviderType) = some provider)
    (hch : provider.NewCharger r = .ok charge)
    (hg : ChargeGuards db r params order) :
    PaymentCreate toLower config providers newID db r =
      chargeOutcome config provider charge params newID (adoptedOrder order r.Token)
        (adoptedDB db order r.Token) := by
  obtain ⟨hfound, hstate, hcur, hown, hamt⟩ := hg
  unfold PaymentCreate
  simp only [hdec, hpt, hreg, hch, hfound, hstate, if_false]
  rcases hown with hanon | htok
  · cases htk : r.Token with
    | none =>
      simp [hanon, hcur, verifyAmount, hamt, chargeOutcome, adoptedOrder, adoptedDB]
    | some c =>
      simp [hanon, hcur, verifyAmount, hamt, chargeOutcome, adoptedOrder, adoptedDB]
  · by_cases hanon : order.UserID = ""
    · simp [hanon, htok, hcur, verifyAmount, hamt, chargeOutcome, adoptedOrder, adoptedDB]
    · simp [hanon, htok, hcur, verifyAmount, hamt, chargeOutcome, adoptedOrder, adoptedDB]

theorem PaymentCreate_rejected (toLower : String → String) (config : Configuration) (providers : String → Option Provider)
    (newID : String) (db : DB) (r : Request)
    (hno : ¬ ∃ params provider charge order,
      decodeParams { Amount := 0, Currency := "USD", ProviderType := "" } r.Body = .ok params ∧
      params.ProviderType ≠ "" ∧
      providers (toLower params.ProviderType) = some provider ∧
      provider.NewCharger r = .ok charge ∧
      ChargeGuards db r params order) :
    (PaymentCreate toLower config providers newID db r).db = db ∧
    (PaymentCreate toLower config providers newID db r).calls = [] ∧
    (PaymentCreate toLower config providers newID db r).tx ≠ .committed := by
  unfold PaymentCreate
  cases hdec : decodeParams { Amount := 0, Currency := "USD", ProviderType := "" } r.Body with
  | error e => simp
  | ok params =>
    by_cases hpt : params.ProviderType = ""
    · simp [hpt]
    · cases hreg : providers (toLower params.ProviderType) with
      | none => simp [hpt, hreg]
      | some provider =>
        cases hch : provider.NewCharger r with
        | error e => simp [hpt, hreg, hch]
        | ok charge =>
          cases hfound : db.firstOrder r.order_id with
          | recordNotFound => simp [hpt, hreg, hch, hfound]
          | error msg => simp [hpt, hreg, hch, hfound]
          | found order =>
            have hg : ¬ ChargeGuards db r params order := fun hg =>
              hno ⟨params, provider, charge, order, hdec, hpt, hreg, hch, hg⟩
            by_cases hstate : order.PaymentState = PaidState
            · simp [hpt, hreg, hch, hfound, hstate]
            · by_cases hcur : order.Currency = params.Currency
              · by_cases hanon : order.UserID = ""
                · have hamt : ¬ params.Amount = order.Total := fun hamt =>
                    hg ⟨hfound, hstate, hcur.symm, Or.inl hanon, hamt⟩
                  have hamt2 : ¬ order.Total = params.Amount := fun h => hamt h.symm
                  cases htk : r.Token <;>
                    simp [hpt, hreg, hch, hfound, hstate, hcur, hanon, verifyAmount, hamt2, htk]
                · cases htk : r.Token with
                  | none => simp [hpt, hreg, hch, hfound, hstate, hcur, hanon, htk]
                  | some c =>
                    by_cases hc : order.UserID = c
                    · subst hc
                      have hamt : ¬ params.Amount = order.Total := fun hamt =>
                        hg ⟨hfound, hstate, hcur.symm, Or.inr htk, hamt⟩
                      have hamt2 : ¬ order.Total = params.Amount := fun h => hamt h.symm
                      simp [hpt, hreg, hch, hfound, hstate, hcur, hanon, htk, verifyAmount, hamt2]
                    · simp [hpt, hreg, hch, hfound, hstate, hcur, hanon, htk, hc]
              · simp [hpt, hreg, hch, hfound, hstate, hcur]

theorem chargeOutcome_calls (config : Configuration) (provider : Provider) (charge : Charger)
    (params : PaymentParams) (newID : String) (order : Order) (tx : DB) :
    (chargeOutcome config provider charge params newID order tx).calls =
      [{ provider := provider.Name, op := .charge params.Amount params.Currency,
         result := charge params.Amount params.Currency }] := by
  cases h : (charge params.Amount params.Currency).2 <;> simp [chargeOutcome, h]


theorem adoptedOrder_ID (order : Order) (token : Option String) :
    (adoptedOrder order token).ID = order.ID := by
  unfold adoptedOrder; split
  · split <;> rfl
  · rfl

theorem adoptedOrder_PaymentState (order : Order) (token : Option String) :
    (adoptedOrder order token).PaymentState = order.PaymentState := by
  unfold adoptedOrder; split
  · split <;> rfl
  · rfl

theorem adoptedOrder_PaymentProcessor (order : Order) (token : Option String) :
    (adoptedOrder order token).PaymentProcessor = order.PaymentProcessor := by
  unfold adoptedOrder; split
  · split <;> rfl
  · rfl

theorem saveOrder_transactions (db : DB) (o : Order) :
    (db.saveOrder o).transactions = db.transactions := by
  unfold DB.saveOrder; split <;> rfl

theorem adoptedDB_transactions (db : DB) (order : Order) (token : Option String) :
    (adoptedDB db order token).transactions = db.transactions := by
  unfold adoptedDB; split
  · split
    · exact saveOrder_transactions _ _
    · rfl
  · rfl

theorem adoptedDB_order?_same (db : DB) (order : Order) (token : Option String) (id : String)
    (h : db.order? id = some order) :
    (adoptedDB db order token).order? id = some (adoptedOrder order token) := by
  have hid := order?_id h
  unfold adoptedDB adoptedOrder
  split
  · split
    · exact order?_saveOrder_same db id order _ hid h
    · exact h
  · exact h

theorem adoptedDB_order?_proj {β : Type} (f : Order → β)
    (hf : ∀ (o : Order) (c : String), f { o with UserID := c } = f o)
    (db : DB) (order : Order) (token : Option String) (id0 : String)
    (h : db.order? id0 = some order) (id : String) :
    ((adoptedDB db order token).order? id).map f = (db.order? id).map f := by
  have hid := order?_id h
  unfold adoptedDB
  split
  · split
    · rename_i c
      exact order?_saveOrder_proj f db id0 order { order with UserID := c } hid h
        (hf order c) id
    · rfl
  · rfl

theorem createTransaction_fresh (db : DB) (tr : Transaction)
    (hfresh : ∀ t ∈ db.transactions, t.ID ≠ tr.ID) :
    (db.createTransaction tr).transactions = db.transactions ++ [tr] := by
  unfold DB.createTransaction
  have : db.transactions.any (fun t => t.ID = tr.ID) = false := by
    simp only [List.any_eq_false, decide_eq_true_eq]
    exact hfresh
  simp [this]


/-! ## Claims on the charge flow -/

/-- C1: a charge request against an order whose payment state is already paid makes no
provider call, leaves the whole persisted state (orders and transactions) as it was, commits
nothing, and is answered with the client error 400; once the request names a configured
provider and a charger is built, the answer is the validation error "This order has already
been paid" and the unit of work is rolled back. -/
theorem PaymentCreate_paid_order_rejected (toLower : String → String) (config : Configuration)
    (providers : String → Option Provider) (newID : String) (db : DB) (r : Request)
    (order : Order)
    (hfound : db.firstOrder r.order_id = .found order)
    (hpaid : order.PaymentState = PaidState) :
    (PaymentCreate toLower config providers newID db r).calls = [] ∧
    (PaymentCreate toLower config providers newID db r).db = db ∧
    (PaymentCreate toLower config providers newID db r).tx ≠ .committed ∧
    (PaymentCreate toLower config providers newID db r).response.Code = 400 ∧
    (PaymentCreate toLower config providers newID db r).response.isClientError ∧
    (∀ params provider charge,
      decodeParams { Amount := 0, Currency := "USD", ProviderType := "" } r.Body = .ok params →
      params.ProviderType ≠ "" →
      providers (toLower params.ProviderType) = some provider →
      provider.NewCharger r = .ok charge →
      (PaymentCreate toLower config providers newID db r).response
          = badRequestError "This order has already been paid" ∧
      (PaymentCreate toLower config providers newID db r).tx = .rolledBack) := by
  have h5 : (PaymentCreate toLower config providers newID db r).calls = [] ∧
      (PaymentCreate toLower config providers newID db r).db = db ∧
      (PaymentCreate toLower config providers newID db r).tx ≠ .committed ∧
      (PaymentCreate toLower config providers newID db r).response.Code = 400 ∧
      (PaymentCreate toLower config providers newID db r).response.isClientError := by
    unfold PaymentCreate Response.isClientError
    cases hdec : decodeParams { Amount := 0, Currency := "USD", ProviderType := "" } r.Body with
    | error e => simp [badRequestError, httpError]
    | ok params =>
      by_cases hpt : params.ProviderType = ""
      · simp [hpt, badRequestError, httpError]
      · cases hreg : providers (toLower params.ProviderType) with
        | none => simp [hpt, hreg, badRequestError, httpError]
        | some provider =>
          cases hch : provider.NewCharger r with
          | error e => simp [hpt, hreg, hch, badRequestError, httpError]
          | ok charge => simp [hpt, hreg, hch, hfound, hpaid, badRequestError, httpError]
  refine ⟨h5.1, h5.2.1, h5.2.2.1, h5.2.2.2.1, h5.2.2.2.2, ?_⟩
  intro params provider charge hdec hpt hreg hch
  unfold PaymentCreate
  simp [hdec, hpt, hreg, hch, hfound, hpaid]

/-- C1 at a concrete request: charging the paid order `o1` is refused with code 400 and
nothing changes. -/
theorem PaymentCreate_paid_order_rejected_witness :
    (PaymentCreate asciiToLower exampleConfig (registryOf acceptingProvider) "t1" paidDB
        (chargeRequest 100)).calls = [] ∧
    (PaymentCreate asciiToLower exampleConfig (registryOf acceptingProvider) "t1" paidDB
        (chargeRequest 100)).db = paidDB ∧
    (PaymentCreate asciiToLower exampleConfig (registryOf acceptingProvider) "t1" paidDB
        (chargeRequest 100)).response.Code = 400 :=
  have h := PaymentCreate_paid_order_rejected asciiToLower exampleConfig (registryOf acceptingProvider) "t1"
    paidDB (chargeRequest 100) paidOrder (by decide) (by decide)
  ⟨h.1, h.2.1, h.2.2.2.1⟩

/-- C5: `PaymentCreate` calls the provider's Charge at most once per request, and only when
the body decodes to parameters for which every guard of the charge flow holds (order found,
not paid, same currency, ownership, amount equal to the total); when the guards do not all
hold, the persisted state is unchanged (no transaction is persisted) and no call is made. -/
theorem PaymentCreate_charges_only_when_guards_hold (toLower : String → String) (config : Configuration)
    (providers : String → Option Provider) (newID : String) (db : DB) (r : Request) :
    (PaymentCreate toLower config providers newID db r).calls.length ≤ 1 ∧
    ((PaymentCreate toLower config providers newID db r).calls ≠ [] →
      ∃ params order,
        decodeParams { Amount := 0, Currency := "USD", ProviderType := "" } r.Body
          = .ok params ∧
        ChargeGuards db r params order) ∧
    ((¬ ∃ params order,
        decodeParams { Amount := 0, Currency := "USD", ProviderType := "" } r.Body
          = .ok params ∧
        ChargeGuards db r params order) →
      (PaymentCreate toLower config providers newID db r).db = db ∧
      (PaymentCreate toLower config providers newID db r).db.transactions = db.transactions ∧
      (PaymentCreate toLower config providers newID db r).calls = []) := by
  by_cases hacc : ∃ params provider charge order,
      decodeParams { Amount := 0, Currency := "USD", ProviderType := "" } r.Body = .ok params ∧
      params.ProviderType ≠ "" ∧
      providers (toLower params.ProviderType) = some provider ∧
      provider.NewCharger r = .ok charge ∧
      ChargeGuards db r params order
  · obtain ⟨params, provider, charge, order, hdec, hpt, hreg, hch, hg⟩ := hacc
    rw [PaymentCreate_accepted toLower config providers newID db r params provider charge order
      hdec hpt hreg hch hg, chargeOutcome_calls]
    refine ⟨by simp, fun _ => ⟨params, order, hdec, hg⟩, fun hno => ?_⟩
    exact absurd ⟨params, order, hdec, hg⟩ hno
  · obtain ⟨hdb, hcalls, _⟩ := PaymentCreate_rejected toLower config providers newID db r hacc
    rw [hdb, hcalls]
    exact ⟨by simp, fun h => absurd rfl h, fun _ => ⟨rfl, rfl, rfl⟩⟩

/-- C10 (as amended): a charge request whose amount differs from the total of the order, all
earlier guards passing, is answered with the server-side error 500 of
`internalServerError`, makes no provider call, and leaves the persisted state unchanged: no
transaction is created and the unit of work is rolled back. -/
theorem PaymentCreate_amount_mismatch (toLower : String → String) (config : Configuration)
    (providers : String → Option Provider) (newID : String) (db : DB) (r : Request)
    (params : PaymentParams) (provider : Provider) (charge : Charger) (order : Order)
    (hdec : decodeParams { Amount := 0, Currency := "USD", ProviderType := "" } r.Body
      = .ok params)
    (hpt : params.ProviderType ≠ "")
    (hreg : providers (toLower params.ProviderType) = some provider)
    (hch : provider.NewCharger r = .ok charge)
    (hfound : db.firstOrder r.order_id = .found order)
    (hstate : order.PaymentState ≠ PaidState)
    (hcur : params.Currency = order.Currency)
    (hown : order.UserID = "" ∨ r.Token = some order.UserID)
    (hamt : params.Amount ≠ order.Total) :
    (PaymentCreate toLower config providers newID db r).response =
      internalServerError ("We failed to authorize the amount for this order: "
        ++ ("Amount calculated for order didn't match amount to charge. "
          ++ toString order.Total ++ " vs " ++ toString params.Amount)) ∧
    (PaymentCreate toLower config providers newID db r).response.Code = 500 ∧
    (PaymentCreate toLower config providers newID db r).response.isServerError ∧
    ¬ (PaymentCreate toLower config providers newID db r).response.isClientError ∧
    (PaymentCreate toLower config providers newID db r).db = db ∧
    (PaymentCreate toLower config providers newID db r).calls = [] ∧
    (PaymentCreate toLower config providers newID db r).tx = .rolledBack := by
  have hamt2 : ¬ order.Total = params.Amount := fun h => hamt h.symm
  unfold PaymentCreate Response.isServerError Response.isClientError
  simp only [hdec, hpt, hreg, hch, hfound, hstate, if_false]
  rcases hown with hanon | htok
  · cases htk : r.Token <;>
      simp [hanon, hcur, verifyAmount, hamt2, internalServerError, httpError]
  · by_cases hanon : order.UserID = ""
    · simp [hanon, htok, hcur, verifyAmount, hamt2, internalServerError, httpError]
    · simp [hanon, htok, hcur, verifyAmount, hamt2, internalServerError, httpError]

/-- C10 (as amended) at a concrete request: 99 is asked for an order of 100. -/
theorem PaymentCreate_amount_mismatch_witness :
    (PaymentCreate asciiToLower exampleConfig (registryOf acceptingProvider) "t1" unpaidDB
        (chargeRequest 99)).response.Code = 500 ∧
    (PaymentCreate asciiToLower exampleConfig (registryOf acceptingProvider) "t1" unpaidDB
        (chargeRequest 99)).db = unpaidDB :=
  have h := PaymentCreate_amount_mismatch asciiToLower exampleConfig (registryOf acceptingProvider) "t1"
    unpaidDB (chargeRequest 99) { Amount := 99, Currency := "USD", ProviderType := "Stripe" }
    acceptingProvider (fun _ _ => ("ch_1", none)) unpaidOrder
    rfl (by decide) rfl rfl (by decide) (by decide) (by decide) (by decide) (by decide)
  ⟨h.2.1, h.2.2.2.2.1⟩

/-- C10 as stated fails: with 99 asked for the unpaid order of 100 (known provider, same
currency, owner logged in), the answer is not a client error but the server-side error
500. -/
theorem PaymentCreate_amount_mismatch_not_client_error :
    ¬ (PaymentCreate asciiToLower exampleConfig (registryOf acceptingProvider) "t1" unpaidDB
        (chargeRequest 99)).response.isClientError ∧
    (PaymentCreate asciiToLower exampleConfig (registryOf acceptingProvider) "t1" unpaidDB
        (chargeRequest 99)).response.Code = 500 := by
  decide

/-- C3 (the code at the failing input): the charge of 100 on the unpaid order `o1` passes
every guard and the provider returns the id `ch_1` without error; the one transaction
persisted has processor id `ch_1` but status `pending`, which is not the paid status, while
the order is persisted as paid and the answer is 200. -/
theorem PaymentCreate_success_leaves_transaction_pending :
    (PaymentCreate asciiToLower exampleConfig (registryOf acceptingProvider) "t1" unpaidDB
        (chargeRequest 100)).db.transactions
      = [{ ID := "t1", OrderID := "o1", UserID := "u1", ProcessorID := "ch_1", Amount := 100,
           Currency := "USD", FailureCode := "", FailureDescription := "",
           Status := "pending", Type_ := "charge" }] ∧
    "pending" ≠ PaidState ∧
    (PaymentCreate asciiToLower exampleConfig (registryOf acceptingProvider) "t1" unpaidDB
        (chargeRequest 100)).db.orders = [paidOrder] ∧
    (PaymentCreate asciiToLower exampleConfig (registryOf acceptingProvider) "t1" unpaidDB
        (chargeRequest 100)).response.Code = 200 := by
  decide


theorem chargeOutcome_failure (config : Configuration) (provider : Provider) (charge : Charger)
    (params : PaymentParams) (newID : String) (order : Order) (tx : DB) (e : String)
    (herr : (charge params.Amount params.Currency).2 = some e) :
    chargeOutcome config provider charge params newID order tx =
      { db := tx.createTransaction
          { NewTransaction newID order with
            ProcessorID := (charge params.Amount params.Currency).1, FailureCode := "500",
            FailureDescription := e, Status := "failed" }
        response := internalServerError ("There was an error charging your card: " ++ e)
        calls := [{ provider := provider.Name, op := .charge params.Amount params.Currency,
                    result := charge params.Amount params.Currency }]
        tx := .committed } := by
  simp [chargeOutcome, herr]

theorem chargeOutcome_success_order? (config : Configuration) (provider : Provider)
    (charge : Charger) (params : PaymentParams) (newID : String) (order : Order) (tx : DB)
    (hok : (charge params.Amount params.Currency).2 = none)
    (h : tx.order? order.ID = some order) :
    (chargeOutcome config provider charge params newID order tx).db.order? order.ID =
      some { order with PaymentProcessor := provider.Name, PaymentState := PaidState } := by
  have h1 : ((tx.createTransaction
      { NewTransaction newID order with
        ProcessorID := (charge params.Amount params.Currency).1, Status := "pending" }).saveOrder
      { order with PaymentProcessor := provider.Name, PaymentState := PaidState }).order?
        order.ID
      = some { order with PaymentProcessor := provider.Name, PaymentState := PaidState } := by
    exact order?_saveOrder_same _ order.ID order
      { order with PaymentProcessor := provider.Name, PaymentState := PaidState } rfl
      (by rw [order?_createTransaction]; exact h)
  simp only [chargeOutcome, hok]
  split
  · rw [order?_saveHook]; exact h1
  · exact h1

/-- C2: when every guard passes and the provider's Charge returns the error `e`, exactly one
transaction is added to the persisted transactions and committed; it is the charge of the
order, with status failed, the non-empty failure code "500" and failure description `e`;
the persisted order keeps its payment state, which is not paid, and its payment processor. -/
theorem PaymentCreate_provider_failure_recorded (toLower : String → String) (config : Configuration)
    (providers : String → Option Provider) (newID : String) (db : DB) (r : Request)
    (params : PaymentParams) (provider : Provider) (charge : Charger) (order : Order)
    (e : String)
    (hdec : decodeParams { Amount := 0, Currency := "USD", ProviderType := "" } r.Body
      = .ok params)
    (hpt : params.ProviderType ≠ "")
    (hreg : providers (toLower params.ProviderType) = some provider)
    (hch : provider.NewCharger r = .ok charge)
    (hg : ChargeGuards db r params order)
    (herr : (charge params.Amount params.Currency).2 = some e)
    (hfresh : ∀ t ∈ db.transactions, t.ID ≠ newID) :
    (∃ tr, (PaymentCreate toLower config providers newID db r).db.transactions
          = db.transactions ++ [tr] ∧
        tr.ID = newID ∧ tr.OrderID = order.ID ∧ tr.Type_ = ChargeTransactionType ∧
        tr.Status = FailedState ∧ tr.FailureCode = "500" ∧ tr.FailureCode ≠ "" ∧
        tr.FailureDescription = e) ∧
    (PaymentCreate toLower config providers newID db r).tx = .committed ∧
    (PaymentCreate toLower config providers newID db r).calls.length = 1 ∧
    (∃ o, (PaymentCreate toLower config providers newID db r).db.order? r.order_id = some o ∧
        o.PaymentState = order.PaymentState ∧ o.PaymentState ≠ PaidState ∧
        o.PaymentProcessor = order.PaymentProcessor) := by
  have hord := (firstOrder_found hg.1).2
  rw [PaymentCreate_accepted toLower config providers newID db r params provider charge order
    hdec hpt hreg hch hg,
    chargeOutcome_failure config provider charge params newID _ _ e herr]
  refine ⟨⟨{ NewTransaction newID (adoptedOrder order r.Token) with
      ProcessorID := (charge params.Amount params.Currency).1, FailureCode := "500",
      FailureDescription := e, Status := "failed" }, ?_, rfl, ?_, rfl, rfl, rfl, ?_, rfl⟩,
    rfl, rfl, ?_⟩
  · show (DB.createTransaction _ _).transactions = _
    rw [createTransaction_fresh, adoptedDB_transactions]
    rw [adoptedDB_transactions]
    exact hfresh
  · show (adoptedOrder order r.Token).ID = order.ID
    exact adoptedOrder_ID _ _
  · show "500" ≠ ""
    decide
  · refine ⟨adoptedOrder order r.Token, ?_, ?_, ?_, ?_⟩
    · show (DB.createTransaction _ _).order? _ = _
      rw [order?_createTransaction]
      exact adoptedDB_order?_same db order r.Token r.order_id hord
    · exact adoptedOrder_PaymentState _ _
    · rw [adoptedOrder_PaymentState]; exact hg.2.1
    · exact adoptedOrder_PaymentProcessor _ _

/-- C2 at a concrete request: the declining provider refuses the charge of 100 on `o1`. -/
theorem PaymentCreate_provider_failure_recorded_witness :
    (PaymentCreate asciiToLower exampleConfig (registryOf decliningProvider) "t1" unpaidDB
        (chargeRequest 100)).tx = .committed ∧
    (PaymentCreate asciiToLower exampleConfig (registryOf decliningProvider) "t1" unpaidDB
        (chargeRequest 100)).calls.length = 1 :=
  have h := PaymentCreate_provider_failure_recorded asciiToLower exampleConfig (registryOf decliningProvider)
    "t1" unpaidDB (chargeRequest 100)
    { Amount := 100, Currency := "USD", ProviderType := "Stripe" }
    decliningProvider (fun _ _ => ("", some "card declined")) unpaidOrder "card declined"
    rfl (by decide) rfl rfl (by decide) rfl (by decide)
  ⟨h.2.1, h.2.2.1⟩


/-- C4: `PaymentCreate` changes the persisted payment state of the order of the request to
paid exactly when a call of the provider's Charge returned without error; in that case the
persisted payment processor of the order is the `Name()` of the provider that charged (the
one registered under the lower-cased provider name of the request); in every other outcome
the persisted payment state and payment processor of every order are what they were. -/
theorem PaymentCreate_paid_iff_charge_succeeded (toLower : String → String) (config : Configuration)
    (providers : String → Option Provider) (newID : String) (db : DB) (r : Request) :
    ((∃ c ∈ (PaymentCreate toLower config providers newID db r).calls, c.result.2 = none) ↔
      ∃ o o', db.order? r.order_id = some o ∧ o.PaymentState ≠ PaidState ∧
        (PaymentCreate toLower config providers newID db r).db.order? r.order_id = some o' ∧
        o'.PaymentState = PaidState) ∧
    (∀ c ∈ (PaymentCreate toLower config providers newID db r).calls, c.result.2 = none →
      ∃ params provider o',
        decodeParams { Amount := 0, Currency := "USD", ProviderType := "" } r.Body
          = .ok params ∧
        providers (toLower params.ProviderType) = some provider ∧
        c.provider = provider.Name ∧
        (PaymentCreate toLower config providers newID db r).db.order? r.order_id = some o' ∧
        o'.PaymentState = PaidState ∧
        o'.PaymentProcessor = provider.Name) ∧
    ((¬ ∃ c ∈ (PaymentCreate toLower config providers newID db r).calls, c.result.2 = none) →
      ∀ id,
        ((PaymentCreate toLower config providers newID db r).db.order? id).map
            (fun o => (o.PaymentState, o.PaymentProcessor))
          = (db.order? id).map (fun o => (o.PaymentState, o.PaymentProcessor))) := by
  by_cases hacc : ∃ params provider charge order,
      decodeParams { Amount := 0, Currency := "USD", ProviderType := "" } r.Body = .ok params ∧
      params.ProviderType ≠ "" ∧
      providers (toLower params.ProviderType) = some provider ∧
      provider.NewCharger r = .ok charge ∧
      ChargeGuards db r params order
  · obtain ⟨params, provider, charge, order, hdec, hpt, hreg, hch, hg⟩ := hacc
    have hord := (firstOrder_found hg.1).2
    have hid := order?_id hord
    rw [PaymentCreate_accepted toLower config providers newID db r params provider charge order
      hdec hpt hreg hch hg]
    have hcalls := chargeOutcome_calls config provider charge params newID
      (adoptedOrder order r.Token) (adoptedDB db order r.Token)
    cases hres : (charge params.Amount params.Currency).2 with
    | some e =>
      have hunch : ∀ id,
          ((chargeOutcome config provider charge params newID (adoptedOrder order r.Token)
              (adoptedDB db order r.Token)).db.order? id).map
              (fun o => (o.PaymentState, o.PaymentProcessor))
            = (db.order? id).map (fun o => (o.PaymentState, o.PaymentProcessor)) := by
        intro id
        rw [chargeOutcome_failure config provider charge params newID _ _ e hres]
        show ((DB.createTransaction _ _).order? id).map _ = _
        rw [order?_createTransaction]
        exact adoptedDB_order?_proj (fun o => (o.PaymentState, o.PaymentProcessor))
          (fun _ _ => rfl) db order r.Token r.order_id hord id
      have hnot : ¬ ∃ c ∈ (chargeOutcome config provider charge params newID
          (adoptedOrder order r.Token) (adoptedDB db order r.Token)).calls,
          c.result.2 = none := by
        rw [hcalls]; simp [hres]
      refine ⟨⟨fun h => absurd h hnot, ?_⟩, ?_, fun _ => hunch⟩
      · rintro ⟨o, o', ho, hne, ho', hp⟩
        have h1 := hunch r.order_id
        rw [ho, ho'] at h1
        simp only [Option.map_some', Option.some.injEq, Prod.mk.injEq] at h1
        exact absurd (h1.1 ▸ hp) hne
      · intro c hc hnone
        exact absurd ⟨c, hc, hnone⟩ hnot
    | none =>
      have hadopt : (adoptedDB db order r.Token).order? (adoptedOrder order r.Token).ID
          = some (adoptedOrder order r.Token) := by
        rw [adoptedOrder_ID, hid]
        exact adoptedDB_order?_same db order r.Token r.order_id hord
      have hpaid := chargeOutcome_success_order? config provider charge params newID
        (adoptedOrder order r.Token) (adoptedDB db order r.Token) hres hadopt
      rw [adoptedOrder_ID, hid] at hpaid
      have hyes : ∃ c ∈ (chargeOutcome config provider charge params newID
          (adoptedOrder order r.Token) (adoptedDB db order r.Token)).calls,
          c.result.2 = none := by
        rw [hcalls]; simp [hres]
      refine ⟨⟨fun _ => ⟨order, _, hord, hg.2.1, hpaid, rfl⟩, fun _ => hyes⟩, ?_,
        fun h => absurd hyes h⟩
      intro c hc _
      rw [hcalls, List.mem_singleton] at hc
      exact ⟨params, provider, _, hdec, hreg, by rw [hc], hpaid, rfl, rfl⟩
  · obtain ⟨hdb, hcalls, _⟩ := PaymentCreate_rejected toLower config providers newID db r hacc
    rw [hdb, hcalls]
    refine ⟨⟨fun h => by simp at h, ?_⟩, fun c hc => by simp at hc, fun _ _ => rfl⟩
    rintro ⟨o, o', ho, hne, ho', hp⟩
    rw [ho] at ho'
    simp only [Option.some.injEq] at ho'
    exact absurd (ho' ▸ hp) hne


/-! ## Lemmas on the refund handler -/

theorem PaymentRefund_accepted (config : Configuration) (providers : String → Option Provider)
    (newID : String) (db : DB) (r : Request) (params : PaymentParams) (txn : Transaction)
    (order : Order) (provider : Provider) (refund : Refunder)
    (hdec : decodeParams { Amount := 0, Currency := "USD", ProviderType := "" } r.Body
      = .ok params)
    (htx : db.firstTransaction r.payment_id = .found txn)
    (hg : RefundGuards params txn)
    (hord : db.firstOrder txn.OrderID = .found order)
    (hproc : order.PaymentProcessor ≠ "")
    (hreg : providers order.PaymentProcessor = some provider)
    (href : provider.NewRefunder r = .ok refund) :
    PaymentRefund config providers newID db r =
      refundOutcome config provider refund params newID txn db := by
  obtain ⟨hcur, hpos, hle, hfc, hst⟩ := hg
  have hamt : ¬ (params.Amount ≤ 0 ∨ params.Amount > txn.Amount) := by omega
  unfold PaymentRefund refundOutcome refundTransaction getTransaction queryForOrder
  simp only [hdec, htx, hcur, hamt, hfc, hst, hord, hproc, hreg, href, ne_eq,
    not_true_eq_false, if_false]

theorem PaymentRefund_guard_rejected (config : Configuration)
    (providers : String → Option Provider) (newID : String) (db : DB) (r : Request)
    (params : PaymentParams) (txn : Transaction)
    (hdec : decodeParams { Amount := 0, Currency := "USD", ProviderType := "" } r.Body
      = .ok params)
    (htx : db.firstTransaction r.payment_id = .found txn)
    (hg : ¬ RefundGuards params txn) :
    (PaymentRefund config providers newID db r).response.Code = 400 ∧
    (PaymentRefund config providers newID db r).db = db ∧
    (PaymentRefund config providers newID db r).calls = [] ∧
    (PaymentRefund config providers newID db r).tx = .notOpened := by
  unfold PaymentRefund getTransaction
  simp only [hdec, htx]
  by_cases hcur : txn.Currency = params.Currency
  · by_cases hz : params.Amount = 0
    · simp [hcur, hz, badRequestError, httpError]
    · by_cases hlt : txn.Amount < params.Amount
      · simp [hcur, hlt, badRequestError, httpError]
      · by_cases hfc : txn.FailureCode = ""
        · have hst : ¬ txn.Status = PaidState := fun hst =>
            hg ⟨hcur.symm, by omega, by omega, hfc, hst⟩
          simp [hcur, hz, hlt, hfc, hst, badRequestError, httpError]
        · simp [hcur, hz, hlt, hfc, badRequestError, httpError]
  · simp [hcur, badRequestError, httpError]

theorem PaymentRefund_cases (config : Configuration) (providers : String → Option Provider)
    (newID : String) (db : DB) (r : Request) :
    ((PaymentRefund config providers newID db r).db = db ∧
      (PaymentRefund config providers newID db r).calls = []) ∨
    ∃ params txn order provider refund,
      decodeParams { Amount := 0, Currency := "USD", ProviderType := "" } r.Body
        = .ok params ∧
      db.firstTransaction r.payment_id = .found txn ∧
      RefundGuards params txn ∧
      db.firstOrder txn.OrderID = .found order ∧
      providers order.PaymentProcessor = some provider ∧
      provider.NewRefunder r = .ok refund ∧
      PaymentRefund config providers newID db r =
        refundOutcome config provider refund params newID txn db := by
  cases hdec : decodeParams { Amount := 0, Currency := "USD", ProviderType := "" } r.Body with
  | error e => left; simp [PaymentRefund, hdec]
  | ok params =>
    cases htx : db.firstTransaction r.payment_id with
    | recordNotFound => left; simp [PaymentRefund, getTransaction, hdec, htx]
    | error msg => left; simp [PaymentRefund, getTransaction, hdec, htx]
    | found txn =>
      by_cases hg : RefundGuards params txn
      · cases hord : db.firstOrder txn.OrderID with
        | recordNotFound =>
          left
          obtain ⟨hcur, hpos, hle, hfc, hst⟩ := hg
          have hz : ¬ params.Amount = 0 := by omega
          have hlt : ¬ txn.Amount < params.Amount := by omega
          simp [PaymentRefund, getTransaction, queryForOrder, hdec, htx, hcur, hz, hlt, hfc, hst,
            hord]
        | error msg =>
          left
          obtain ⟨hcur, hpos, hle, hfc, hst⟩ := hg
          have hz : ¬ params.Amount = 0 := by omega
          have hlt : ¬ txn.Amount < params.Amount := by omega
          simp [PaymentRefund, getTransaction, queryForOrder, hdec, htx, hcur, hz, hlt, hfc, hst,
            hord]
        | found order =>
          by_cases hproc : order.PaymentProcessor = ""
          · left
            obtain ⟨hcur, hpos, hle, hfc, hst⟩ := hg
            have hz : ¬ params.Amount = 0 := by omega
            have hlt : ¬ txn.Amount < params.Amount := by omega
            simp [PaymentRefund, getTransaction, queryForOrder, hdec, htx, hcur, hz, hlt, hfc,
              hst, hord, hproc]
          · cases hreg : providers order.PaymentProcessor with
            | none =>
              left
              obtain ⟨hcur, hpos, hle, hfc, hst⟩ := hg
              have hz : ¬ params.Amount = 0 := by omega
              have hlt : ¬ txn.Amount < params.Amount := by omega
              simp [PaymentRefund, getTransaction, queryForOrder, hdec, htx, hcur, hz, hlt, hfc,
                hst, hord, hproc, hreg]
            | some provider =>
              cases href : provider.NewRefunder r with
              | error e =>
                left
                obtain ⟨hcur, hpos, hle, hfc, hst⟩ := hg
                have hz : ¬ params.Amount = 0 := by omega
                have hlt : ¬ txn.Amount < params.Amount := by omega
                simp [PaymentRefund, getTransaction, queryForOrder, hdec, htx, hcur, hz, hlt, hfc,
                  hst, hord, hproc, hreg, href]
              | ok refund =>
                right
                exact ⟨params, txn, order, provider, refund, rfl, rfl, hg, hord, hreg, href,
                  PaymentRefund_accepted config providers newID db r params txn order provider
                    refund hdec htx hg hord hproc hreg href⟩
      · left
        have h := PaymentRefund_guard_rejected config providers newID db r params txn hdec htx hg
        exact ⟨h.2.1, h.2.2.1⟩


theorem refundTransaction_ID (params : PaymentParams) (newID : String) (txn : Transaction)
    (result : String × Option String) : (refundTransaction params newID txn result).ID = newID := by
  unfold refundTransaction; split <;> rfl

theorem map_replace_fresh (l : List Transaction) (m : Transaction)
    (h : ∀ t ∈ l, t.ID ≠ m.ID) : l.map (fun t => if t.ID = m.ID then m else t) = l := by
  induction l with
  | nil => rfl
  | cons a t ih =>
    rw [List.map_cons, ih (fun x hx => h x (List.mem_cons_of_mem _ hx))]
    simp only [h a (List.mem_cons_self _ _), if_false]

theorem saveTransaction_after_create (db : DB) (m0 m : Transaction) (hid : m.ID = m0.ID)
    (hfresh : ∀ t ∈ db.transactions, t.ID ≠ m0.ID) :
    ((db.createTransaction m0).saveTransaction m).transactions = db.transactions ++ [m] := by
  have hc := createTransaction_fresh db m0 hfresh
  have hany : (db.createTransaction m0).transactions.any (fun t => t.ID = m.ID) = true := by
    rw [hc]
    simp [hid]
  unfold DB.saveTransaction
  simp only [hany, if_true]
  rw [hc, List.map_append, map_replace_fresh db.transactions m (by rw [hid]; exact hfresh)]
  simp [hid]

theorem refundOutcome_transactions (config : Configuration) (provider : Provider)
    (refund : Refunder) (params : PaymentParams) (newID : String) (txn : Transaction) (db : DB)
    (hfresh : ∀ t ∈ db.transactions, t.ID ≠ newID) :
    (refundOutcome config provider refund params newID txn db).db.transactions =
      db.transactions ++
        [refundTransaction params newID txn (refund txn.ProcessorID params.Amount params.Currency)] := by
  have h := saveTransaction_after_create db
    { ID := newID, OrderID := txn.OrderID, UserID := txn.UserID, ProcessorID := "",
      Amount := params.Amount, Currency := params.Currency, FailureCode := "",
      FailureDescription := "", Status := PendingState, Type_ := RefundTransactionType }
    (refundTransaction params newID txn (refund txn.ProcessorID params.Amount params.Currency))
    (refundTransaction_ID _ _ _ _) hfresh
  unfold refundOutcome
  simp only []
  split
  · exact h
  · exact h

theorem refundOutcome_orders (config : Configuration) (provider : Provider)
    (refund : Refunder) (params : PaymentParams) (newID : String) (txn : Transaction) (db : DB) :
    (refundOutcome config provider refund params newID txn db).db.orders = db.orders ∧
    (refundOutcome config provider refund params newID txn db).db.fault = db.fault := by
  unfold refundOutcome DB.saveHook DB.saveTransaction DB.createTransaction
  simp only []
  repeat' split
  all_goals exact ⟨rfl, rfl⟩

/-! ## Claims on the refund flow -/

/-- C6: when the body decodes, the named transaction is found, its order is found and names
a configured provider for which a refunder is built, `PaymentRefund` persists a refund
transaction and calls the provider's Refund exactly when the refund guards hold (same
currency, `0 < amount ≤ Transaction.amount`, empty failure code, status paid); otherwise
it answers with the client error 400, leaves the persisted state unchanged and makes no
call. In particular an amount above the original amount is rejected with nothing
persisted, and the request is accepted in the same way whatever further transactions
(earlier refunds of the same charge included) are recorded. -/
theorem PaymentRefund_accepts_iff_guards (config : Configuration)
    (providers : String → Option Provider) (newID : String) (db : DB) (r : Request)
    (params : PaymentParams) (txn : Transaction) (order : Order) (provider : Provider)
    (refund : Refunder)
    (hdec : decodeParams { Amount := 0, Currency := "USD", ProviderType := "" } r.Body
      = .ok params)
    (htx : db.firstTransaction r.payment_id = .found txn)
    (hord : db.firstOrder txn.OrderID = .found order)
    (hproc : order.PaymentProcessor ≠ "")
    (hreg : providers order.PaymentProcessor = some provider)
    (href : provider.NewRefunder r = .ok refund)
    (hfresh : ∀ t ∈ db.transactions, t.ID ≠ newID) :
    (RefundGuards params txn →
      (∃ m, (PaymentRefund config providers newID db r).db.transactions
            = db.transactions ++ [m] ∧
          m.ID = newID ∧ m.Type_ = RefundTransactionType) ∧
      (PaymentRefund config providers newID db r).calls =
        [{ provider := provider.Name
           op := .refund txn.ProcessorID params.Amount params.Currency
           result := refund txn.ProcessorID params.Amount params.Currency }]) ∧
    (¬ RefundGuards params txn →
      (PaymentRefund config providers newID db r).response.isClientError ∧
      (PaymentRefund config providers newID db r).response.Code = 400 ∧
      (PaymentRefund config providers newID db r).db = db ∧
      (PaymentRefund config providers newID db r).calls = []) ∧
    (txn.Amount < params.Amount →
      (PaymentRefund config providers newID db r).response.Code = 400 ∧
      (PaymentRefund config providers newID db r).db = db ∧
      (PaymentRefund config providers newID db r).calls = []) ∧
    (∀ extra : List Transaction, RefundGuards params txn →
      (PaymentRefund config providers newID
          { db with transactions := db.transactions ++ extra } r).calls =
        [{ provider := provider.Name
           op := .refund txn.ProcessorID params.Amount params.Currency
           result := refund txn.ProcessorID params.Amount params.Currency }] ∧
      (PaymentRefund config providers newID
          { db with transactions := db.transactions ++ extra } r).response.Code = 200) := by
  refine ⟨fun hg => ?_, fun hg => ?_, fun hlt => ?_, fun extra hg => ?_⟩
  · rw [PaymentRefund_accepted config providers newID db r params txn order provider refund
      hdec htx hg hord hproc hreg href]
    refine ⟨⟨_, refundOutcome_transactions config provider refund params newID txn db hfresh,
      refundTransaction_ID _ _ _ _, ?_⟩, rfl⟩
    unfold refundTransaction; split <;> rfl
  · have h := PaymentRefund_guard_rejected config providers newID db r params txn hdec htx hg
    refine ⟨?_, h.1, h.2.1, h.2.2.1⟩
    unfold Response.isClientError
    rw [h.1]; omega
  · have hg : ¬ RefundGuards params txn := fun hg => by
      have := hg.2.2.1
      omega
    have h := PaymentRefund_guard_rejected config providers newID db r params txn hdec htx hg
    exact ⟨h.1, h.2.1, h.2.2.1⟩
  · have htx2 : ({ db with transactions := db.transactions ++ extra } : DB).firstTransaction
        r.payment_id = .found txn := by
      unfold DB.firstTransaction at htx ⊢
      cases hf : db.fault with
      | some msg => simp [hf] at htx
      | none =>
        simp only [hf] at htx ⊢
        cases hq : db.transactions.find? (fun t => t.ID = r.payment_id) with
        | none => simp [hq] at htx
        | some t =>
          simp only [hq] at htx
          rw [List.find?_append, hq]
          exact htx
    have hord2 : ({ db with transactions := db.transactions ++ extra } : DB).firstOrder
        txn.OrderID = .found order := hord
    rw [PaymentRefund_accepted config providers newID _ r params txn order provider refund
      hdec htx2 hg hord2 hproc hreg href]
    exact ⟨rfl, rfl⟩


/-- C6 at a concrete request: the full refund of the paid charge `t1` is accepted, also when
a full refund of the same charge is already recorded. -/
theorem PaymentRefund_accepts_iff_guards_witness :
    (PaymentRefund exampleConfig (registryOf acceptingProvider) "t2" chargedDB
        (refundRequest 100)).calls =
      [{ provider := "stripe", op := .refund "ch_1" 100 "USD", result := ("re_1", none) }] ∧
    (PaymentRefund exampleConfig (registryOf acceptingProvider) "t2"
        { chargedDB with transactions := chargedDB.transactions ++ [earlierRefund] }
        (refundRequest 100)).response.Code = 200 :=
  have h := PaymentRefund_accepts_iff_guards exampleConfig (registryOf acceptingProvider) "t2"
    chargedDB (refundRequest 100) { Amount := 100, Currency := "USD", ProviderType := "" }
    paidCharge paidOrder acceptingProvider (fun _ _ _ => ("re_1", none))
    rfl (by decide) (by decide) (by decide) rfl rfl (by decide)
  ⟨(h.1 (by decide)).2, (h.2.2.2 [earlierRefund] (by decide)).2⟩

/-- C7: an accepted refund request calls the provider's Refund exactly once, with the
processor id of the original transaction and the amount and currency of the request, and
commits exactly one new transaction: of type refund, with the amount and currency of the
request and the order id and user id of the original transaction. Its status is paid with
the returned refund id as processor id when the call succeeds, and failed with failure code
"500" and the error text as failure description when the call fails. The unit of work is
committed in both cases and the transaction is the body of the answer. -/
theorem PaymentRefund_records_refund (config : Configuration)
    (providers : String → Option Provider) (newID : String) (db : DB) (r : Request)
    (params : PaymentParams) (txn : Transaction) (order : Order) (provider : Provider)
    (refund : Refunder)
    (hdec : decodeParams { Amount := 0, Currency := "USD", ProviderType := "" } r.Body
      = .ok params)
    (htx : db.firstTransaction r.payment_id = .found txn)
    (hg : RefundGuards params txn)
    (hord : db.firstOrder txn.OrderID = .found order)
    (hproc : order.PaymentProcessor ≠ "")
    (hreg : providers order.PaymentProcessor = some provider)
    (href : provider.NewRefunder r = .ok refund)
    (hfresh : ∀ t ∈ db.transactions, t.ID ≠ newID) :
    (PaymentRefund config providers newID db r).calls =
      [{ provider := provider.Name
         op := .refund txn.ProcessorID params.Amount params.Currency
         result := refund txn.ProcessorID params.Amount params.Currency }] ∧
    (PaymentRefund config providers newID db r).tx = .committed ∧
    (∃ m, (PaymentRefund config providers newID db r).db.transactions
          = db.transactions ++ [m] ∧
        (PaymentRefund config providers newID db r).response = sendJSON 200 m ∧
        m.ID = newID ∧ m.Type_ = RefundTransactionType ∧
        m.Amount = params.Amount ∧ m.Currency = params.Currency ∧
        m.OrderID = txn.OrderID ∧ m.UserID = txn.UserID ∧
        ((refund txn.ProcessorID params.Amount params.Currency).2 = none →
          m.Status = PaidState ∧
          m.ProcessorID = (refund txn.ProcessorID params.Amount params.Currency).1 ∧
          m.FailureCode = "") ∧
        (∀ e, (refund txn.ProcessorID params.Amount params.Currency).2 = some e →
          m.Status = FailedState ∧ m.FailureCode = "500" ∧ m.FailureCode ≠ "" ∧
          m.FailureDescription = e)) := by
  rw [PaymentRefund_accepted config providers newID db r params txn order provider refund
    hdec htx hg hord hproc hreg href]
  refine ⟨rfl, rfl,
    refundTransaction params newID txn (refund txn.ProcessorID params.Amount params.Currency),
    refundOutcome_transactions config provider refund params newID txn db hfresh, rfl, ?_⟩
  unfold refundTransaction
  cases hres : (refund txn.ProcessorID params.Amount params.Currency).2 with
  | none => simp
  | some e => simp

/-- C7 at a concrete request: the declining provider refuses the full refund of `t1`; the
failed refund is recorded and committed. -/
theorem PaymentRefund_records_refund_witness :
    (PaymentRefund exampleConfig (registryOf decliningProvider) "t2" chargedDB
        (refundRequest 100)).calls =
      [{ provider := "stripe", op := .refund "ch_1" 100 "USD",
         result := ("", some "refund refused") }] ∧
    (PaymentRefund exampleConfig (registryOf decliningProvider) "t2" chargedDB
        (refundRequest 100)).tx = .committed :=
  have h := PaymentRefund_records_refund exampleConfig (registryOf decliningProvider) "t2"
    chargedDB (refundRequest 100) { Amount := 100, Currency := "USD", ProviderType := "" }
    paidCharge paidOrder decliningProvider (fun _ _ _ => ("", some "refund refused"))
    rfl (by decide) (by decide) (by decide) (by decide) rfl rfl (by decide)
  ⟨h.1, h.2.1⟩

theorem firstTransaction_append (db db' : DB) (added : List Transaction) (payID : String)
    (t : Transaction) (hfault : db'.fault = db.fault)
    (htr : db'.transactions = db.transactions ++ added)
    (h : db.firstTransaction payID = .found t) : db'.firstTransaction payID = .found t := by
  unfold DB.firstTransaction at h ⊢
  rw [hfault, htr]
  cases hf : db.fault with
  | some msg => simp [hf] at h
  | none =>
    simp only [hf] at h ⊢
    cases hq : db.transactions.find? (fun t => t.ID = payID) with
    | none => simp [hq] at h
    | some t2 =>
      simp only [hq] at h
      rw [List.find?_append, hq]
      exact h

/-- C9: whatever the outcome of a refund request (rejected, refused by the provider, or
successful), `PaymentRefund` leaves the persisted orders exactly as they were (so every
order keeps its payment state and payment processor, and a paid order stays paid); the
transactions recorded before are all kept in place (new ones are only appended), and every
transaction that could be read before, the original charge in particular, reads the same
afterwards. The identifier of the new transaction is fresh. -/
theorem PaymentRefund_preserves_order_and_charge (config : Configuration)
    (providers : String → Option Provider) (newID : String) (db : DB) (r : Request)
    (hfresh : ∀ t ∈ db.transactions, t.ID ≠ newID) :
    (PaymentRefund config providers newID db r).db.orders = db.orders ∧
    (∀ id, (PaymentRefund config providers newID db r).db.firstOrder id = db.firstOrder id) ∧
    (∀ o ∈ db.orders, o.PaymentState = PaidState →
      o ∈ (PaymentRefund config providers newID db r).db.orders) ∧
    (∃ added, (PaymentRefund config providers newID db r).db.transactions
      = db.transactions ++ added) ∧
    (∀ payID t, db.firstTransaction payID = .found t →
      (PaymentRefund config providers newID db r).db.firstTransaction payID = .found t) := by
  rcases PaymentRefund_cases config providers newID db r with ⟨hdb, _⟩ | ⟨params, txn, _,
    provider, refund, _, _, _, _, _, _, heq⟩
  · rw [hdb]
    exact ⟨rfl, fun _ => rfl, fun _ ho _ => ho, ⟨[], by simp⟩, fun _ _ h => h⟩
  · rw [heq]
    have ho := refundOutcome_orders config provider refund params newID txn db
    have ht := refundOutcome_transactions config provider refund params newID txn db hfresh
    refine ⟨ho.1, fun id => ?_, fun o hmem _ => by rw [ho.1]; exact hmem, ⟨_, ht⟩,
      fun payID t h => firstTransaction_append db _ _ payID t ho.2 ht h⟩
    unfold DB.firstOrder
    rw [ho.1, ho.2]

/-- C9 at a concrete request: after the full refund of `t1` the paid order and the charge
are as before. -/
theorem PaymentRefund_preserves_order_and_charge_witness :
    (PaymentRefund exampleConfig (registryOf acceptingProvider) "t2" chargedDB
        (refundRequest 100)).db.orders = [paidOrder] ∧
    (PaymentRefund exampleConfig (registryOf acceptingProvider) "t2" chargedDB
        (refundRequest 100)).db.firstTransaction "t1" = .found paidCharge :=
  have h := PaymentRefund_preserves_order_and_charge exampleConfig
    (registryOf acceptingProvider) "t2" chargedDB (refundRequest 100) (by decide)
  ⟨h.1, h.2.2.2.2 "t1" paidCharge (by decide)⟩


/-! ## The provider resolved by the handlers -/

theorem mapSet_names (provs : String → Option Provider) (q : Provider)
    (h : ∀ k p, provs k = some p → p.Name = k) :
    ∀ k p, mapSet provs q.Name q k = some p → p.Name = k := by
  intro k p hk
  unfold mapSet at hk
  by_cases hkq : k = q.Name
  · simp only [hkq, if_true, Option.some.injEq] at hk
    rw [← hk, hkq]
  · simp only [hkq, if_false] at hk
    exact h k p hk

theorem createPaymentProviders_names (newClient : String → StripeClient)
    (paypalNew : PayPalSettings → Except String Provider) (c : Configuration)
    (providers : String → Option Provider)
    (hreg : createPaymentProviders newClient paypalNew c = .ok providers) :
    ∀ k p, providers k = some p → p.Name = k := by
  have h0 : ∀ k p, (fun _ => none : String → Option Provider) k = some p → p.Name = k := by
    intro k p h; simp at h
  unfold createPaymentProviders at hreg
  simp only [] at hreg
  have step1 : ∀ provs1,
      (if c.Payment.Stripe.Enabled = true then
        match stripe.NewPaymentProvider newClient c.Payment.Stripe.SecretKey with
        | .error err => (.error err : Except String (String → Option Provider))
        | .ok p => .ok (mapSet (fun _ => none) p.Name p)
      else .ok (fun _ => none)) = .ok provs1 →
      ∀ k p, provs1 k = some p → p.Name = k := by
    intro provs1 h1
    cases hs : c.Payment.Stripe.Enabled with
    | false =>
      rw [hs, if_neg Bool.false_ne_true] at h1
      simp only [Except.ok.injEq] at h1
      rw [← h1]
      exact h0
    | true =>
      rw [hs, if_pos rfl] at h1
      cases hp : stripe.NewPaymentProvider newClient c.Payment.Stripe.SecretKey with
      | error e => simp [hp] at h1
      | ok p =>
        simp only [hp, Except.ok.injEq] at h1
        rw [← h1]
        exact mapSet_names _ p h0
  split at hreg
  · simp at hreg
  · rename_i provs1 h1
    have hn := step1 provs1 h1
    cases hpp : c.Payment.PayPal.Enabled with
    | false =>
      rw [hpp, if_neg Bool.false_ne_true] at hreg
      simp only [Except.ok.injEq] at hreg
      rw [← hreg]
      exact hn
    | true =>
      rw [hpp, if_pos rfl] at hreg
      cases hq : paypalNew c.Payment.PayPal with
      | error e => simp [hq] at hreg
      | ok q =>
        simp only [hq, Except.ok.injEq] at hreg
        rw [← hreg]
        exact mapSet_names _ q hn

theorem PaymentCreate_charge_succeeded (toLower : String → String) (config : Configuration)
    (providers : String → Option Provider) (newID : String) (db : DB) (r : Request)
    (call : ProviderCall) (hc : call ∈ (PaymentCreate toLower config providers newID db r).calls)
    (hnone : call.result.2 = none) :
    ∃ params provider o',
      decodeParams { Amount := 0, Currency := "USD", ProviderType := "" } r.Body
        = .ok params ∧
      providers (toLower params.ProviderType) = some provider ∧
      call.provider = provider.Name ∧
      (PaymentCreate toLower config providers newID db r).db.order? r.order_id = some o' ∧
      o'.PaymentState = PaidState ∧
      o'.PaymentProcessor = provider.Name := by
  by_cases hacc : ∃ params provider charge order,
      decodeParams { Amount := 0, Currency := "USD", ProviderType := "" } r.Body = .ok params ∧
      params.ProviderType ≠ "" ∧
      providers (toLower params.ProviderType) = some provider ∧
      provider.NewCharger r = .ok charge ∧
      ChargeGuards db r params order
  · obtain ⟨params, provider, charge, order, hdec, hpt, hreg, hch, hg⟩ := hacc
    have hord := (firstOrder_found hg.1).2
    have hid := order?_id hord
    rw [PaymentCreate_accepted toLower config providers newID db r params provider charge order
      hdec hpt hreg hch hg] at hc ⊢
    rw [chargeOutcome_calls, List.mem_singleton] at hc
    have hres : (charge params.Amount params.Currency).2 = none := by
      rw [hc] at hnone; exact hnone
    have hadopt : (adoptedDB db order r.Token).order? (adoptedOrder order r.Token).ID
        = some (adoptedOrder order r.Token) := by
      rw [adoptedOrder_ID, hid]
      exact adoptedDB_order?_same db order r.Token r.order_id hord
    have hpaid := chargeOutcome_success_order? config provider charge params newID
      (adoptedOrder order r.Token) (adoptedDB db order r.Token) hres hadopt
    rw [adoptedOrder_ID, hid] at hpaid
    exact ⟨params, provider, _, hdec, hreg, by rw [hc], hpaid, rfl, rfl⟩
  · obtain ⟨_, hcalls, _⟩ := PaymentCreate_rejected toLower config providers newID db r hacc
    rw [hcalls] at hc
    simp at hc

theorem PaymentRefund_congr (config : Configuration) (providers : String → Option Provider)
    (newID : String) (db : DB) (r1 r2 : Request) (p1 p2 : PaymentParams)
    (hpay : r1.payment_id = r2.payment_id)
    (h1 : decodeParams { Amount := 0, Currency := "USD", ProviderType := "" } r1.Body = .ok p1)
    (h2 : decodeParams { Amount := 0, Currency := "USD", ProviderType := "" } r2.Body = .ok p2)
    (ha : p1.Amount = p2.Amount) (hcu : p1.Currency = p2.Currency)
    (href : ∀ txn order p, db.firstTransaction r2.payment_id = .found txn →
      db.firstOrder txn.OrderID = .found order →
      providers order.PaymentProcessor = some p → p.NewRefunder r1 = p.NewRefunder r2) :
    PaymentRefund config providers newID db r1 = PaymentRefund config providers newID db r2 := by
  unfold PaymentRefund getTransaction queryForOrder
  simp only [h1, h2, hpay, ha, hcu]
  cases htx : db.firstTransaction r2.payment_id with
  | recordNotFound => rfl
  | error msg => rfl
  | found txn =>
    simp only []
    cases hord : db.firstOrder txn.OrderID with
    | recordNotFound => rfl
    | error msg => rfl
    | found order =>
      simp only []
      cases hreg : providers order.PaymentProcessor with
      | none => rfl
      | some provider =>
        simp only [href txn order provider htx hord hreg]


theorem withProvider_payment_id (r : Request) (x : Option String) :
    (r.withProvider x).payment_id = r.payment_id := by
  unfold Request.withProvider; split <;> rfl

theorem decodeParams_withProvider (init : PaymentParams) (r : Request) (x : Option String) :
    (∀ e, decodeParams init r.Body = .error e →
      decodeParams init (r.withProvider x).Body = .error e) ∧
    (∀ p, decodeParams init r.Body = .ok p →
      ∃ p1, decodeParams init (r.withProvider x).Body = .ok p1 ∧
        p1.Amount = p.Amount ∧ p1.Currency = p.Currency) := by
  unfold Request.withProvider
  cases hb : r.Body with
  | error e0 =>
    simp only [hb]
    exact ⟨fun e h => h, fun p h => ⟨p, h, rfl, rfl⟩⟩
  | ok b =>
    simp only [decodeParams]
    cases hamt : b.amount with
    | none =>
      refine ⟨fun e h => by simp at h, fun p h => ?_⟩
      simp only [Except.ok.injEq] at h
      exact ⟨_, rfl, by rw [← h], by rw [← h]⟩
    | some n =>
      by_cases hn : n < 2 ^ 64
      · simp only [hn, if_true]
        refine ⟨fun e h => by simp at h, fun p h => ?_⟩
        simp only [Except.ok.injEq] at h
        exact ⟨_, rfl, by rw [← h], by rw [← h]⟩
      · simp only [hn, if_false]
        exact ⟨fun e h => h, fun p h => by simp at h⟩

theorem createPaymentProviders_stripe_only (newClient : String → StripeClient)
    (paypalNew : PayPalSettings → Except String Provider) (c : Configuration)
    (providers : String → Option Provider)
    (hreg : createPaymentProviders newClient paypalNew c = .ok providers)
    (hpp : c.Payment.PayPal.Enabled = false) :
    ∀ k p, providers k = some p → ∀ r1 r2 : Request, p.NewRefunder r1 = p.NewRefunder r2 := by
  unfold createPaymentProviders at hreg
  simp only [hpp, Bool.false_eq_true, if_false] at hreg
  cases hs : c.Payment.Stripe.Enabled with
  | false =>
    rw [hs] at hreg
    simp only [Bool.false_eq_true, if_false, Except.ok.injEq] at hreg
    intro k p hk
    rw [← hreg] at hk
    simp at hk
  | true =>
    rw [hs] at hreg
    simp only [if_true] at hreg
    unfold stripe.NewPaymentProvider at hreg
    by_cases hkey : c.Payment.Stripe.SecretKey = ""
    · simp [hkey] at hreg
    · simp only [hkey, if_false, Except.ok.injEq] at hreg
      intro k p hk r1 r2
      rw [← hreg] at hk
      unfold mapSet at hk
      split at hk
      · simp only [Option.some.injEq] at hk
        rw [← hk]
        rfl
      · simp at hk

/-- C8: for a registry built by `createPaymentProviders`, every key maps to a provider of
that name. `PaymentRefund` resolves its provider by the payment processor of the order of
the named transaction and never by the request: every refund call is made by the provider
registered under that payment processor; two requests that differ only in the member
`provider` of the body have the same outcome as soon as the refunder factory of that one
provider treats them alike, and without any such condition when the registry holds the
Stripe provider only (its factory does not read the request). After a charge that
succeeded, looking up the persisted payment processor of the order in the registry gives
the very provider `PaymentCreate` charged with, the one registered under the lower-cased
provider name of the charge request. -/
theorem PaymentRefund_resolves_provider_by_order (toLower : String → String)
    (newClient : String → StripeClient)
    (paypalNew : PayPalSettings → Except String Provider) (c : Configuration)
    (providers : String → Option Provider)
    (hreg : createPaymentProviders newClient paypalNew c = .ok providers) :
    (∀ k p, providers k = some p → p.Name = k) ∧
    (∀ (config : Configuration) (newID : String) (db : DB) (r : Request) (x : Option String),
      (∀ txn order p, db.firstTransaction r.payment_id = .found txn →
        db.firstOrder txn.OrderID = .found order →
        providers order.PaymentProcessor = some p →
        p.NewRefunder (r.withProvider x) = p.NewRefunder r) →
      PaymentRefund config providers newID db (r.withProvider x)
        = PaymentRefund config providers newID db r) ∧
    (c.Payment.PayPal.Enabled = false →
      ∀ (config : Configuration) (newID : String) (db : DB) (r : Request) (x : Option String),
        PaymentRefund config providers newID db (r.withProvider x)
          = PaymentRefund config providers newID db r) ∧
    (∀ (config : Configuration) (newID : String) (db : DB) (r : Request) (call : ProviderCall),
      call ∈ (PaymentRefund config providers newID db r).calls →
      ∃ (params : PaymentParams) (txn : Transaction) (order : Order) (provider : Provider)
          (refund : Refunder),
        db.firstTransaction r.payment_id = .found txn ∧
        db.firstOrder txn.OrderID = .found order ∧
        providers order.PaymentProcessor = some provider ∧
        provider.NewRefunder r = .ok refund ∧
        call.provider = provider.Name ∧
        call.op = .refund txn.ProcessorID params.Amount params.Currency ∧
        call.result = refund txn.ProcessorID params.Amount params.Currency) ∧
    (∀ (config : Configuration) (newID : String) (db : DB) (r : Request) (call : ProviderCall),
      call ∈ (PaymentCreate toLower config providers newID db r).calls →
      call.result.2 = none →
      ∃ params provider o',
        decodeParams { Amount := 0, Currency := "USD", ProviderType := "" } r.Body
          = .ok params ∧
        providers (toLower params.ProviderType) = some provider ∧
        call.provider = provider.Name ∧
        (PaymentCreate toLower config providers newID db r).db.order? r.order_id = some o' ∧
        o'.PaymentProcessor = provider.Name ∧
        providers o'.PaymentProcessor = some provider) := by
  have hnames := createPaymentProviders_names newClient paypalNew c providers hreg
  have hswap : ∀ (config : Configuration) (newID : String) (db : DB) (r : Request)
      (x : Option String),
      (∀ txn order p, db.firstTransaction r.payment_id = .found txn →
        db.firstOrder txn.OrderID = .found order →
        providers order.PaymentProcessor = some p →
        p.NewRefunder (r.withProvider x) = p.NewRefunder r) →
      PaymentRefund config providers newID db (r.withProvider x)
        = PaymentRefund config providers newID db r := by
    intro config newID db r x href
    have hd := decodeParams_withProvider
      { Amount := 0, Currency := "USD", ProviderType := "" } r x
    cases hdec : decodeParams { Amount := 0, Currency := "USD", ProviderType := "" } r.Body with
    | error e =>
      have hd1 := hd.1 e hdec
      unfold PaymentRefund
      simp only [hd1, hdec]
    | ok p =>
      obtain ⟨p1, hd1, ha, hcu⟩ := hd.2 p hdec
      exact PaymentRefund_congr config providers newID db (r.withProvider x) r p1 p
        (withProvider_payment_id r x) hd1 hdec ha hcu href
  refine ⟨hnames, hswap, ?_, ?_, ?_⟩
  · intro hpp config newID db r x
    have hind := createPaymentProviders_stripe_only newClient paypalNew c providers hreg hpp
    exact hswap config newID db r x
      (fun _ order p _ _ hp => hind order.PaymentProcessor p hp (r.withProvider x) r)
  · intro config newID db r call hc
    rcases PaymentRefund_cases config providers newID db r with ⟨_, hcalls⟩ | ⟨params, txn,
      order, provider, refund, _, htx, _, hord, hprov, href, heq⟩
    · rw [hcalls] at hc; simp at hc
    · rw [heq] at hc
      have hc' : call = { provider := provider.Name
                          op := .refund txn.ProcessorID params.Amount params.Currency
                          result := refund txn.ProcessorID params.Amount params.Currency } := by
        simpa [refundOutcome] using hc
      exact ⟨params, txn, order, provider, refund, htx, hord, hprov, href, by rw [hc'],
        by rw [hc'], by rw [hc']⟩
  · intro config newID db r call hc hnone
    obtain ⟨params, provider, o', hdec, hprov, hcp, ho', _, hproc⟩ :=
      PaymentCreate_charge_succeeded toLower config providers newID db r call hc hnone
    refine ⟨params, provider, o', hdec, hprov, hcp, ho', hproc, ?_⟩
    rw [hproc, hnames _ _ hprov]
    exact hprov

/-- C8 at a concrete registry (Stripe only): a refund request of the charge `t1` that names
the provider `paypal` behaves as the same request without a provider, and the successful
charge of `o1` through Stripe persists a payment processor that resolves to the provider
that charged. -/
theorem PaymentRefund_resolves_provider_by_order_witness :
    PaymentRefund exampleConfig exampleRegistry "t2" chargedDB
        ((refundRequest 100).withProvider (some "paypal"))
      = PaymentRefund exampleConfig exampleRegistry "t2" chargedDB (refundRequest 100) ∧
    ∃ params provider o',
      decodeParams { Amount := 0, Currency := "USD", ProviderType := "" }
        (chargeRequest 100).Body = .ok params ∧
      exampleRegistry (asciiToLower params.ProviderType) = some provider ∧
      "stripe" = provider.Name ∧
      (PaymentCreate asciiToLower exampleConfig exampleRegistry "t1" unpaidDB
        (chargeRequest 100)).db.order? "o1" = some o' ∧
      o'.PaymentProcessor = provider.Name ∧
      exampleRegistry o'.PaymentProcessor = some provider :=
  have h := PaymentRefund_resolves_provider_by_order asciiToLower (fun _ => exampleClient)
    (fun _ => .error "PayPal is not configured") exampleConfig exampleRegistry rfl
  ⟨h.2.2.1 rfl exampleConfig "t2" chargedDB (refundRequest 100) (some "paypal"),
    h.2.2.2.2 exampleConfig "t1" unpaidDB (chargeRequest 100)
      { provider := "stripe", op := .charge 100 "USD", result := ("ch_1", none) }
      (by decide) rfl⟩

/-! ## Provider failures, ownership, hooks -/

/-- When every guard of the charge flow passes and the provider's Charge returns the error
`e`, `PaymentCreate` commits the failed transaction and answers with the server-side error
500 that carries the error text. -/
theorem PaymentCreate_provider_failure_answer (toLower : String → String)
    (config : Configuration) (providers : String → Option Provider)
    (newID : String) (db : DB) (r : Request) (params : PaymentParams) (provider : Provider)
    (charge : Charger) (order : Order) (e : String)
    (hdec : decodeParams { Amount := 0, Currency := "USD", ProviderType := "" } r.Body
      = .ok params)
    (hpt : params.ProviderType ≠ "")
    (hreg : providers (toLower params.ProviderType) = some provider)
    (hch : provider.NewCharger r = .ok charge)
    (hg : ChargeGuards db r params order)
    (herr : (charge params.Amount params.Currency).2 = some e)
    (hfresh : ∀ t ∈ db.transactions, t.ID ≠ newID) :
    (PaymentCreate toLower config providers newID db r).tx = .committed ∧
    (∃ tr, (PaymentCreate toLower config providers newID db r).db.transactions
        = db.transactions ++ [tr] ∧ tr.Status = FailedState ∧ tr.FailureDescription = e) ∧
    (PaymentCreate toLower config providers newID db r).response
      = internalServerError ("There was an error charging your card: " ++ e) ∧
    (PaymentCreate toLower config providers newID db r).response.Code = 500 ∧
    (PaymentCreate toLower config providers newID db r).response.isServerError := by
  rw [PaymentCreate_accepted toLower config providers newID db r params provider charge order
    hdec hpt hreg hch hg,
    chargeOutcome_failure config provider charge params newID _ _ e herr]
  refine ⟨rfl, ⟨{ NewTransaction newID (adoptedOrder order r.Token) with
      ProcessorID := (charge params.Amount params.Currency).1, FailureCode := "500",
      FailureDescription := e, Status := "failed" }, ?_, rfl, rfl⟩, rfl, rfl, ?_⟩
  · show (DB.createTransaction _ _).transactions = _
    rw [createTransaction_fresh, adoptedDB_transactions]
    rw [adoptedDB_transactions]
    exact hfresh
  · simp [Response.isServerError, internalServerError, httpError]

/-- When every guard of the refund flow passes and the provider's Refund returns the error
`e`, `PaymentRefund` commits the failed refund transaction (status failed, failure code
"500", the error text as description) and answers 200 with that transaction as body, not
with a server-side error. -/
theorem PaymentRefund_provider_failure_answer (config : Configuration)
    (providers : String → Option Provider)
    (newID : String) (db : DB) (r : Request) (params : PaymentParams) (txn : Transaction)
    (order : Order) (provider : Provider) (refund : Refunder) (e : String)
    (hdec : decodeParams { Amount := 0, Currency := "USD", ProviderType := "" } r.Body
      = .ok params)
    (htx : db.firstTransaction r.payment_id = .found txn)
    (hg : RefundGuards params txn)
    (hord : db.firstOrder txn.OrderID = .found order)
    (hproc : order.PaymentProcessor ≠ "")
    (hreg : providers order.PaymentProcessor = some provider)
    (href : provider.NewRefunder r = .ok refund)
    (herr : (refund txn.ProcessorID params.Amount params.Currency).2 = some e)
    (hfresh : ∀ t ∈ db.transactions, t.ID ≠ newID) :
    (PaymentRefund config providers newID db r).tx = .committed ∧
    (∃ m, (PaymentRefund config providers newID db r).db.transactions
        = db.transactions ++ [m] ∧
      m.Status = FailedState ∧ m.FailureCode = "500" ∧ m.FailureDescription = e ∧
      (PaymentRefund config providers newID db r).response = sendJSON 200 m) ∧
    (PaymentRefund config providers newID db r).response.Code = 200 ∧
    ¬ (PaymentRefund config providers newID db r).response.isServerError := by
  rw [PaymentRefund_accepted config providers newID db r params txn order provider
    refund hdec htx hg hord hproc hreg href]
  refine ⟨rfl, ⟨refundTransaction params newID txn
      (refund txn.ProcessorID params.Amount params.Currency),
    refundOutcome_transactions config provider refund params newID txn db hfresh,
    ?_, ?_, ?_, rfl⟩, rfl, ?_⟩
  · simp [refundTransaction, herr]
  · simp [refundTransaction, herr]
  · simp [refundTransaction, herr]
  · simp [Response.isServerError, refundOutcome, sendJSON]

/-- C11 (the code at the failing input): the provider refuses the refund of the paid charge
`t1`; `PaymentRefund` makes the one Refund call, commits the failed refund transaction, and
answers 200, which is not a server-side error. In the charge flow the same refusal is
answered with the server-side error 500. -/
theorem PaymentRefund_provider_failure_answers_ok :
    (PaymentRefund exampleConfig (registryOf decliningProvider) "t2" chargedDB
        (refundRequest 100)).calls =
      [{ provider := "stripe", op := .refund "ch_1" 100 "USD",
         result := ("", some "refund refused") }] ∧
    (PaymentRefund exampleConfig (registryOf decliningProvider) "t2" chargedDB
        (refundRequest 100)).tx = .committed ∧
    (PaymentRefund exampleConfig (registryOf decliningProvider) "t2" chargedDB
        (refundRequest 100)).db.transactions =
      [paidCharge,
       { ID := "t2", OrderID := "o1", UserID := "u1", ProcessorID := "", Amount := 100,
         Currency := "USD", FailureCode := "500", FailureDescription := "refund refused",
         Status := FailedState, Type_ := RefundTransactionType }] ∧
    (PaymentRefund exampleConfig (registryOf decliningProvider) "t2" chargedDB
        (refundRequest 100)).response.Code = 200 ∧
    ¬ (PaymentRefund exampleConfig (registryOf decliningProvider) "t2" chargedDB
        (refundRequest 100)).response.isServerError ∧
    (PaymentCreate asciiToLower exampleConfig (registryOf decliningProvider) "t1" unpaidDB
        (chargeRequest 100)).response.Code = 500 := by
  decide

theorem adoptedOrder_UserID (order : Order) (c : String) (hanon : order.UserID = "") :
    (adoptedOrder order (some c)).UserID = c := by
  unfold adoptedOrder
  simp [hanon]

/-- C12: for an order with a non-empty user id, a request without token, or with a token of
another identity, makes no provider call, persists nothing, and (the earlier guards
passing) is answered `unauthorized`, 401, after a rollback; for an order without user id
and a caller with a token, whenever the unit of work commits, the persisted order carries
the identity of the caller as user id. -/
theorem PaymentCreate_ownership (toLower : String → String) (config : Configuration)
    (providers : String → Option Provider) (newID : String) (db : DB) (r : Request)
    (order : Order)
    (hfound : db.firstOrder r.order_id = .found order) :
    (order.UserID ≠ "" → r.Token ≠ some order.UserID →
      (PaymentCreate toLower config providers newID db r).calls = [] ∧
      (PaymentCreate toLower config providers newID db r).db = db ∧
      (PaymentCreate toLower config providers newID db r).tx ≠ .committed ∧
      (∀ params provider charge,
        decodeParams { Amount := 0, Currency := "USD", ProviderType := "" } r.Body
          = .ok params →
        params.ProviderType ≠ "" →
        providers (toLower params.ProviderType) = some provider →
        provider.NewCharger r = .ok charge →
        order.PaymentState ≠ PaidState →
        order.Currency = params.Currency →
        (PaymentCreate toLower config providers newID db r).response
            = unauthorizedError "You must be logged in to pay for this order" ∧
        (PaymentCreate toLower config providers newID db r).response.Code = 401 ∧
        (PaymentCreate toLower config providers newID db r).tx = .rolledBack)) ∧
    (order.UserID = "" → ∀ c, r.Token = some c →
      (PaymentCreate toLower config providers newID db r).tx = .committed →
      ∃ o, (PaymentCreate toLower config providers newID db r).db.order? r.order_id = some o ∧
        o.UserID = c) := by
  constructor
  · intro huser htok
    have hno : ¬ ∃ params provider charge order,
        decodeParams { Amount := 0, Currency := "USD", ProviderType := "" } r.Body
          = .ok params ∧
        params.ProviderType ≠ "" ∧
        providers (toLower params.ProviderType) = some provider ∧
        provider.NewCharger r = .ok charge ∧
        ChargeGuards db r params order := by
      rintro ⟨params, provider, charge, order', _, _, _, _, hf, _, _, hown, _⟩
      rw [hfound] at hf
      simp only [QueryResult.found.injEq] at hf
      subst hf
      rcases hown with h | h
      · exact huser h
      · exact htok h
    obtain ⟨hdb, hcalls, htx⟩ := PaymentCreate_rejected toLower config providers newID db r hno
    refine ⟨hcalls, hdb, htx, ?_⟩
    intro params provider charge hdec hpt hreg hch hstate hcur
    unfold PaymentCreate
    simp only [hdec, hpt, hreg, hch, hfound, hstate, if_false]
    cases htk : r.Token with
    | none => simp [hcur, huser, unauthorizedError, httpError]
    | some c =>
      have hc : ¬ order.UserID = c := fun h => htok (by rw [htk, h])
      simp [hcur, huser, hc, unauthorizedError, httpError]
  · intro hanon c htok hcommit
    by_cases hacc : ∃ params provider charge order,
        decodeParams { Amount := 0, Currency := "USD", ProviderType := "" } r.Body
          = .ok params ∧
        params.ProviderType ≠ "" ∧
        providers (toLower params.ProviderType) = some provider ∧
        provider.NewCharger r = .ok charge ∧
        ChargeGuards db r params order
    · obtain ⟨params, provider, charge, order', hdec, hpt, hreg, hch, hg⟩ := hacc
      have hf := hg.1
      rw [hfound] at hf
      simp only [QueryResult.found.injEq] at hf
      subst hf
      have hord := (firstOrder_found hfound).2
      have hid := order?_id hord
      rw [PaymentCreate_accepted toLower config providers newID db r params provider charge order
        hdec hpt hreg hch hg, htok]
      have hadopt := adoptedDB_order?_same db order (some c) r.order_id hord
      cases hres : (charge params.Amount params.Currency).2 with
      | some e =>
        rw [chargeOutcome_failure config provider charge params newID _ _ e hres]
        refine ⟨adoptedOrder order (some c), ?_, adoptedOrder_UserID order c hanon⟩
        show (DB.createTransaction _ _).order? _ = _
        rw [order?_createTransaction]
        exact hadopt
      | none =>
        have hadopt2 : (adoptedDB db order (some c)).order? (adoptedOrder order (some c)).ID
            = some (adoptedOrder order (some c)) := by
          rw [adoptedOrder_ID, hid]; exact hadopt
        have hpaid := chargeOutcome_success_order? config provider charge params newID
          (adoptedOrder order (some c)) (adoptedDB db order (some c)) hres hadopt2
        rw [adoptedOrder_ID, hid] at hpaid
        exact ⟨_, hpaid, adoptedOrder_UserID order c hanon⟩
    · exact absurd hcommit (PaymentCreate_rejected toLower config providers newID db r hacc).2.2

/-- C12 at concrete requests: on the order `o1` of user `u1` a request without token changes
nothing and is answered 401; on the order `o1` without owner the charge by `u1` persists
`u1` as its user id. -/
theorem PaymentCreate_ownership_witness :
    (PaymentCreate asciiToLower exampleConfig (registryOf acceptingProvider) "t1" unpaidDB
        anonymousRequest).db = unpaidDB ∧
    (PaymentCreate asciiToLower exampleConfig (registryOf acceptingProvider) "t1" unpaidDB
        anonymousRequest).response.Code = 401 ∧
    (∃ o, (PaymentCreate asciiToLower exampleConfig (registryOf acceptingProvider) "t1" anonymousDB
        (chargeRequest 100)).db.order? "o1" = some o ∧ o.UserID = "u1") :=
  have h := (PaymentCreate_ownership asciiToLower exampleConfig (registryOf acceptingProvider) "t1"
    unpaidDB anonymousRequest unpaidOrder (by decide)).1 (by decide) (by decide)
  ⟨h.2.1, (h.2.2.2 { Amount := 100, Currency := "USD", ProviderType := "Stripe" }
    acceptingProvider (fun _ _ => ("ch_1", none)) rfl (by decide) rfl rfl (by decide)
    (by decide)).2.1,
   (PaymentCreate_ownership asciiToLower exampleConfig (registryOf acceptingProvider) "t1"
    anonymousDB (chargeRequest 100) anonymousOrder (by decide)).2 (by decide) "u1" rfl
    (by decide)⟩


theorem saveOrder_hooks (db : DB) (o : Order) : (db.saveOrder o).hooks = db.hooks := by
  unfold DB.saveOrder; split <;> rfl

theorem createTransaction_hooks (db : DB) (tr : Transaction) :
    (db.createTransaction tr).hooks = db.hooks := by
  unfold DB.createTransaction; split <;> rfl

theorem saveTransaction_hooks (db : DB) (m : Transaction) :
    (db.saveTransaction m).hooks = db.hooks := by
  unfold DB.saveTransaction; split <;> rfl

theorem adoptedDB_hooks (db : DB) (order : Order) (token : Option String) :
    (adoptedDB db order token).hooks = db.hooks := by
  unfold adoptedDB; split
  · split
    · exact saveOrder_hooks _ _
    · rfl
  · rfl

theorem saveTransaction_mem (db : DB) (m : Transaction) :
    m ∈ (db.saveTransaction m).transactions := by
  unfold DB.saveTransaction
  split
  · rename_i hany
    simp only [List.any_eq_true, decide_eq_true_eq] at hany
    obtain ⟨t, ht, hid⟩ := hany
    simp only [List.mem_map]
    exact ⟨t, ht, by simp [hid]⟩
  · simp

theorem saveHook_transactions (db : DB) (hook : Hook) :
    (db.saveHook hook).transactions = db.transactions := rfl

/-- C13 (as amended): a hook persisted by `PaymentCreate` has type "payment", the
configured payment target, the configured secret, the user id of the order and, as
payload, the order as it is persisted (paid), not the transaction; a hook persisted by
`PaymentRefund` has type "refund", the configured refund target, the configured secret and,
as payload, the refund transaction of the request. In both handlers the hook is written in
the one unit of work that persists the transaction of the request (the row appended to the
transactions, which is also the body of the answer) and that is committed, and no hook is
persisted when the webhook target is empty. The identifier of the new transaction is
fresh. -/
theorem hooks_persisted_with_transaction (toLower : String → String)
    (config : Configuration) (providers : String → Option Provider) (newID : String)
    (db : DB) (r : Request)
    (hfresh : ∀ t ∈ db.transactions, t.ID ≠ newID) :
    ((PaymentCreate toLower config providers newID db r).db.hooks = db.hooks ∨
      (config.Webhooks.Payment ≠ "" ∧
        (PaymentCreate toLower config providers newID db r).tx = .committed ∧
        ∃ o tr,
          (PaymentCreate toLower config providers newID db r).db.hooks =
            db.hooks ++ [{ Type_ := "payment", TargetURL := config.Webhooks.Payment,
                           UserID := o.UserID, Secret := config.Webhooks.Secret,
                           Payload := .order o }] ∧
          (PaymentCreate toLower config providers newID db r).db.order? r.order_id = some o ∧
          o.PaymentState = PaidState ∧
          (PaymentCreate toLower config providers newID db r).db.transactions
            = db.transactions ++ [tr] ∧
          tr.ID = newID ∧ tr.OrderID = o.ID ∧ tr.Type_ = ChargeTransactionType ∧
          (PaymentCreate toLower config providers newID db r).response = sendJSON 200 tr)) ∧
    (config.Webhooks.Payment = "" →
      (PaymentCreate toLower config providers newID db r).db.hooks = db.hooks) ∧
    ((PaymentRefund config providers newID db r).db.hooks = db.hooks ∨
      (config.Webhooks.Refund ≠ "" ∧
        (PaymentRefund config providers newID db r).tx = .committed ∧
        ∃ m,
          (PaymentRefund config providers newID db r).db.hooks =
            db.hooks ++ [{ Type_ := "refund", TargetURL := config.Webhooks.Refund,
                           UserID := m.UserID, Secret := config.Webhooks.Secret,
                           Payload := .transaction m }] ∧
          (PaymentRefund config providers newID db r).db.transactions
            = db.transactions ++ [m] ∧
          m ∈ (PaymentRefund config providers newID db r).db.transactions ∧
          m.ID = newID ∧ m.Type_ = RefundTransactionType ∧
          (PaymentRefund config providers newID db r).response = sendJSON 200 m)) ∧
    (config.Webhooks.Refund = "" →
      (PaymentRefund config providers newID db r).db.hooks = db.hooks) := by
  have hcreate : (PaymentCreate toLower config providers newID db r).db.hooks = db.hooks ∨
      (config.Webhooks.Payment ≠ "" ∧
        (PaymentCreate toLower config providers newID db r).tx = .committed ∧
        ∃ o tr,
          (PaymentCreate toLower config providers newID db r).db.hooks =
            db.hooks ++ [{ Type_ := "payment", TargetURL := config.Webhooks.Payment,
                           UserID := o.UserID, Secret := config.Webhooks.Secret,
                           Payload := .order o }] ∧
          (PaymentCreate toLower config providers newID db r).db.order? r.order_id = some o ∧
          o.PaymentState = PaidState ∧
          (PaymentCreate toLower config providers newID db r).db.transactions
            = db.transactions ++ [tr] ∧
          tr.ID = newID ∧ tr.OrderID = o.ID ∧ tr.Type_ = ChargeTransactionType ∧
          (PaymentCreate toLower config providers newID db r).response = sendJSON 200 tr) := by
    by_cases hacc : ∃ params provider charge order,
        decodeParams { Amount := 0, Currency := "USD", ProviderType := "" } r.Body
          = .ok params ∧
        params.ProviderType ≠ "" ∧
        providers (toLower params.ProviderType) = some provider ∧
        provider.NewCharger r = .ok charge ∧
        ChargeGuards db r params order
    · obtain ⟨params, provider, charge, order, hdec, hpt, hreg, hch, hg⟩ := hacc
      have hord := (firstOrder_found hg.1).2
      have hid := order?_id hord
      rw [PaymentCreate_accepted toLower config providers newID db r params provider charge
        order hdec hpt hreg hch hg]
      cases hres : (charge params.Amount params.Currency).2 with
      | some e =>
        left
        rw [chargeOutcome_failure config provider charge params newID _ _ e hres]
        show (DB.createTransaction _ _).hooks = _
        rw [createTransaction_hooks, adoptedDB_hooks]
      | none =>
        have hadopt : (adoptedDB db order r.Token).order? (adoptedOrder order r.Token).ID
            = some (adoptedOrder order r.Token) := by
          rw [adoptedOrder_ID, hid]
          exact adoptedDB_order?_same db order r.Token r.order_id hord
        have hidA : (adoptedOrder order r.Token).ID = r.order_id := by
          rw [adoptedOrder_ID, hid]
        have hpaid : (chargeOutcome config provider charge params newID
            (adoptedOrder order r.Token) (adoptedDB db order r.Token)).db.order? r.order_id
            = some { adoptedOrder order r.Token with
                PaymentProcessor := provider.Name, PaymentState := PaidState } := by
          rw [← hidA]
          exact chargeOutcome_success_order? config provider charge params newID
            (adoptedOrder order r.Token) (adoptedDB db order r.Token) hres hadopt
        have hcr : ((adoptedDB db order r.Token).createTransaction
            { NewTransaction newID (adoptedOrder order r.Token) with
              ProcessorID := (charge params.Amount params.Currency).1,
              Status := "pending" }).transactions
            = db.transactions ++
              [{ NewTransaction newID (adoptedOrder order r.Token) with
                 ProcessorID := (charge params.Amount params.Currency).1,
                 Status := "pending" }] := by
          rw [createTransaction_fresh, adoptedDB_transactions]
          rw [adoptedDB_transactions]
          exact hfresh
        by_cases hw : config.Webhooks.Payment = ""
        · left
          simp only [chargeOutcome, hres, hw, ne_eq, not_true_eq_false, if_false]
          rw [saveOrder_hooks, createTransaction_hooks, adoptedDB_hooks]
        · right
          refine ⟨hw, ?_, _, { NewTransaction newID (adoptedOrder order r.Token) with
            ProcessorID := (charge params.Amount params.Currency).1, Status := "pending" },
            ?_, hpaid, rfl, ?_, rfl, rfl, rfl, ?_⟩
          · simp [chargeOutcome, hres]
          · simp only [chargeOutcome, hres, hw, ne_eq, not_false_eq_true, if_true]
            show (DB.saveOrder _ _).hooks ++ _ = _
            rw [saveOrder_hooks, createTransaction_hooks, adoptedDB_hooks]
            rfl
          · simp only [chargeOutcome, hres, hw, ne_eq, not_false_eq_true, if_true]
            rw [saveHook_transactions, saveOrder_transactions]
            exact hcr
          · simp only [chargeOutcome, hres]
    · left
      rw [(PaymentCreate_rejected toLower config providers newID db r hacc).1]
  have hrefund : (PaymentRefund config providers newID db r).db.hooks = db.hooks ∨
      (config.Webhooks.Refund ≠ "" ∧
        (PaymentRefund config providers newID db r).tx = .committed ∧
        ∃ m,
          (PaymentRefund config providers newID db r).db.hooks =
            db.hooks ++ [{ Type_ := "refund", TargetURL := config.Webhooks.Refund,
                           UserID := m.UserID, Secret := config.Webhooks.Secret,
                           Payload := .transaction m }] ∧
          (PaymentRefund config providers newID db r).db.transactions
            = db.transactions ++ [m] ∧
          m ∈ (PaymentRefund config providers newID db r).db.transactions ∧
          m.ID = newID ∧ m.Type_ = RefundTransactionType ∧
          (PaymentRefund config providers newID db r).response = sendJSON 200 m) := by
    rcases PaymentRefund_cases config providers newID db r with ⟨hdb, _⟩ | ⟨params, txn, _,
      provider, refund, _, _, _, _, _, _, heq⟩
    · left; rw [hdb]
    · rw [heq]
      have htr := refundOutcome_transactions config provider refund params newID txn db hfresh
      by_cases hw : config.Webhooks.Refund = ""
      · left
        simp only [refundOutcome, hw, ne_eq, not_true_eq_false, if_false]
        rw [saveTransaction_hooks, createTransaction_hooks]
      · right
        refine ⟨hw, rfl, refundTransaction params newID txn
          (refund txn.ProcessorID params.Amount params.Currency), ?_, htr, ?_,
          refundTransaction_ID _ _ _ _, ?_, rfl⟩
        · simp only [refundOutcome, hw, ne_eq, not_false_eq_true, if_true]
          show (DB.saveTransaction _ _).hooks ++ _ = _
          rw [saveTransaction_hooks, createTransaction_hooks]
          rfl
        · rw [htr]
          simp
        · unfold refundTransaction
          split <;> rfl
  refine ⟨hcreate, fun hw => ?_, hrefund, fun hw => ?_⟩
  · rcases hcreate with h | ⟨hne, _⟩
    · exact h
    · exact absurd hw hne
  · rcases hrefund with h | ⟨hne, _⟩
    · exact h
    · exact absurd hw hne

/-- C13 (as amended) at concrete requests with both webhook targets configured: the
successful charge of `o1` persists the transaction `t1` and one payment hook whose payload
is the paid order; the successful refund of `t1` persists the refund `t2` and one refund
hook whose payload is that refund. -/
theorem hooks_persisted_with_transaction_witness :
    (∃ o tr,
      (PaymentCreate asciiToLower hookConfig (registryOf acceptingProvider) "t1" unpaidDB
          (chargeRequest 100)).db.hooks =
        unpaidDB.hooks ++ [{ Type_ := "payment", TargetURL := hookConfig.Webhooks.Payment,
                             UserID := o.UserID, Secret := hookConfig.Webhooks.Secret,
                             Payload := .order o }] ∧
      (PaymentCreate asciiToLower hookConfig (registryOf acceptingProvider) "t1" unpaidDB
          (chargeRequest 100)).db.order? (chargeRequest 100).order_id = some o ∧
      o.PaymentState = PaidState ∧
      (PaymentCreate asciiToLower hookConfig (registryOf acceptingProvider) "t1" unpaidDB
          (chargeRequest 100)).db.transactions = unpaidDB.transactions ++ [tr] ∧
      tr.ID = "t1" ∧ tr.OrderID = o.ID ∧ tr.Type_ = ChargeTransactionType ∧
      (PaymentCreate asciiToLower hookConfig (registryOf acceptingProvider) "t1" unpaidDB
          (chargeRequest 100)).response = sendJSON 200 tr) ∧
    (∃ m,
      (PaymentRefund hookConfig (registryOf acceptingProvider) "t2" chargedDB
          (refundRequest 100)).db.hooks =
        chargedDB.hooks ++ [{ Type_ := "refund", TargetURL := hookConfig.Webhooks.Refund,
                              UserID := m.UserID, Secret := hookConfig.Webhooks.Secret,
                              Payload := .transaction m }] ∧
      (PaymentRefund hookConfig (registryOf acceptingProvider) "t2" chargedDB
          (refundRequest 100)).db.transactions = chargedDB.transactions ++ [m] ∧
      m ∈ (PaymentRefund hookConfig (registryOf acceptingProvider) "t2" chargedDB
          (refundRequest 100)).db.transactions ∧
      m.ID = "t2" ∧ m.Type_ = RefundTransactionType ∧
      (PaymentRefund hookConfig (registryOf acceptingProvider) "t2" chargedDB
          (refundRequest 100)).response = sendJSON 200 m) :=
  ⟨(((hooks_persisted_with_transaction asciiToLower hookConfig
        (registryOf acceptingProvider) "t1" unpaidDB (chargeRequest 100)
        (by decide)).1).resolve_left (by decide)).2.2,
   (((hooks_persisted_with_transaction asciiToLower hookConfig
        (registryOf acceptingProvider) "t2" chargedDB (refundRequest 100)
        (by decide)).2.2.1).resolve_left (by decide)).2.2⟩

/-- C13 as stated fails in the charge flow: with a payment webhook configured, the hook
persisted by the successful charge of `o1` carries the paid order as payload, which is not
the transaction recorded by the request. -/
theorem PaymentCreate_hook_payload_is_order :
    (PaymentCreate asciiToLower hookConfig (registryOf acceptingProvider) "t1" unpaidDB
        (chargeRequest 100)).db.hooks =
      [{ Type_ := "payment", TargetURL := "https://hooks.example/payment", UserID := "u1",
         Secret := "s3cret", Payload := .order paidOrder }] ∧
    (PaymentCreate asciiToLower hookConfig (registryOf acceptingProvider) "t1" unpaidDB
        (chargeRequest 100)).db.transactions.length = 1 ∧
    ∀ tr ∈ (PaymentCreate asciiToLower hookConfig (registryOf acceptingProvider) "t1" unpaidDB
        (chargeRequest 100)).db.transactions,
      ∀ h ∈ (PaymentCreate asciiToLower hookConfig (registryOf acceptingProvider) "t1" unpaidDB
        (chargeRequest 100)).db.hooks, h.Payload ≠ .transaction tr := by
  decide


/-! ## Status of the transactions recorded by a charge -/

theorem createTransaction_cases (db : DB) (tr : Transaction) :
    (db.createTransaction tr).transactions = db.transactions ∨
    ((∀ t ∈ db.transactions, t.ID ≠ tr.ID) ∧
      (db.createTransaction tr).transactions = db.transactions ++ [tr]) := by
  by_cases hany : db.transactions.any (fun t => t.ID = tr.ID) = true
  · left
    unfold DB.createTransaction
    simp only [hany, if_true]
  · right
    have hfresh : ∀ t ∈ db.transactions, t.ID ≠ tr.ID := by
      simpa only [List.any_eq_true, decide_eq_true_eq, not_exists, not_and] using hany
    exact ⟨hfresh, createTransaction_fresh db tr hfresh⟩

theorem adoptedDB_fault (db : DB) (order : Order) (token : Option String) :
    (adoptedDB db order token).fault = db.fault := by
  unfold adoptedDB DB.saveOrder
  repeat' split
  all_goals rfl

theorem chargeOutcome_transactions (config : Configuration) (provider : Provider)
    (charge : Charger) (params : PaymentParams) (newID : String) (order : Order) (tx : DB) :
    (chargeOutcome config provider charge params newID order tx).db.fault = tx.fault ∧
    ∃ tr, tr.ID = newID ∧ (tr.Status = "failed" ∨ tr.Status = "pending") ∧
      tr.ProcessorID = (charge params.Amount params.Currency).1 ∧
      (chargeOutcome config provider charge params newID order tx).db.transactions
        = (tx.createTransaction tr).transactions := by
  cases hres : (charge params.Amount params.Currency).2 with
  | some e =>
    rw [chargeOutcome_failure config provider charge params newID order tx e hres]
    refine ⟨?_, _, rfl, Or.inl rfl, rfl, rfl⟩
    show (DB.createTransaction _ _).fault = _
    unfold DB.createTransaction; split <;> rfl
  | none =>
    refine ⟨?_, { NewTransaction newID order with
      ProcessorID := (charge params.Amount params.Currency).1, Status := "pending" },
      rfl, Or.inr rfl, rfl, ?_⟩
    · simp only [chargeOutcome, hres]
      unfold DB.saveHook DB.saveOrder DB.createTransaction
      repeat' split
      all_goals rfl
    · simp only [chargeOutcome, hres]
      unfold DB.saveHook DB.saveOrder
      repeat' split
      all_goals rfl

theorem PaymentRefund_unpaid_rejected (config : Configuration)
    (providers : String → Option Provider) (newID : String) (db : DB) (r : Request)
    (tr : Transaction) (htx : db.firstTransaction r.payment_id = .found tr)
    (hst : tr.Status ≠ PaidState) :
    (PaymentRefund config providers newID db r).response.Code = 400 ∧
    (PaymentRefund config providers newID db r).db = db ∧
    (PaymentRefund config providers newID db r).calls = [] := by
  cases hdec : decodeParams { Amount := 0, Currency := "USD", ProviderType := "" } r.Body with
  | error e => simp [PaymentRefund, hdec, badRequestError, httpError]
  | ok params =>
    have h := PaymentRefund_guard_rejected config providers newID db r params tr hdec htx
      (fun hg => hst hg.2.2.2.2)
    exact ⟨h.1, h.2.1, h.2.2.1⟩

/-- C19: a request to `PaymentCreate` adds at most one transaction to the persisted ones,
and a transaction it adds has status "failed" or "pending", never the paid status.
Consequently every refund request that names a transaction added by `PaymentCreate` is
answered by `PaymentRefund` with the client error 400, with no call of the provider's
Refund and nothing persisted. -/
theorem PaymentCreate_never_records_paid (toLower : String → String) (config : Configuration)
    (providers : String → Option Provider) (newID : String) (db : DB) (r : Request) :
    ((PaymentCreate toLower config providers newID db r).db.transactions = db.transactions ∨
      ∃ tr, (PaymentCreate toLower config providers newID db r).db.transactions
        = db.transactions ++ [tr]) ∧
    ∀ tr, (PaymentCreate toLower config providers newID db r).db.transactions
        = db.transactions ++ [tr] →
      (tr.Status = "failed" ∨ tr.Status = "pending") ∧ tr.Status ≠ PaidState ∧
      (PaymentCreate toLower config providers newID db r).db.firstTransaction tr.ID = .found tr ∧
      ∀ (config2 : Configuration) (providers2 : String → Option Provider) (newID2 : String)
        (r2 : Request), r2.payment_id = tr.ID →
        (PaymentRefund config2 providers2 newID2
          (PaymentCreate toLower config providers newID db r).db r2).response.Code = 400 ∧
        (PaymentRefund config2 providers2 newID2
          (PaymentCreate toLower config providers newID db r).db r2).response.isClientError ∧
        (PaymentRefund config2 providers2 newID2
          (PaymentCreate toLower config providers newID db r).db r2).calls = [] ∧
        (PaymentRefund config2 providers2 newID2
          (PaymentCreate toLower config providers newID db r).db r2).db
          = (PaymentCreate toLower config providers newID db r).db := by
  have key : (PaymentCreate toLower config providers newID db r).db.transactions = db.transactions ∨
      ∃ tr, (PaymentCreate toLower config providers newID db r).db.transactions
          = db.transactions ++ [tr] ∧
        (tr.Status = "failed" ∨ tr.Status = "pending") ∧
        (PaymentCreate toLower config providers newID db r).db.firstTransaction tr.ID = .found tr := by
    by_cases hacc : ∃ params provider charge order,
        decodeParams { Amount := 0, Currency := "USD", ProviderType := "" } r.Body
          = .ok params ∧
        params.ProviderType ≠ "" ∧
        providers (toLower params.ProviderType) = some provider ∧
        provider.NewCharger r = .ok charge ∧
        ChargeGuards db r params order
    · obtain ⟨params, provider, charge, order, hdec, hpt, hreg, hch, hg⟩ := hacc
      have hfault := (firstOrder_found hg.1).1
      rw [PaymentCreate_accepted toLower config providers newID db r params provider charge order
        hdec hpt hreg hch hg]
      obtain ⟨hf, tr, hid, hst, _, htr⟩ := chargeOutcome_transactions config provider charge
        params newID (adoptedOrder order r.Token) (adoptedDB db order r.Token)
      rw [adoptedDB_fault] at hf
      rcases createTransaction_cases (adoptedDB db order r.Token) tr with hc | ⟨hfresh, hc⟩
      · left
        rw [htr, hc, adoptedDB_transactions]
      · right
        rw [adoptedDB_transactions] at hc hfresh
        refine ⟨tr, by rw [htr, hc], hst, ?_⟩
        unfold DB.firstTransaction
        rw [hf, hfault, htr, hc]
        simp only []
        have hnone : db.transactions.find? (fun t => t.ID = tr.ID) = none := by
          rw [List.find?_eq_none]
          intro t ht
          simpa using hfresh t ht
        rw [List.find?_append, hnone]
        simp
    · left
      rw [(PaymentCreate_rejected toLower config providers newID db r hacc).1]
  refine ⟨?_, ?_⟩
  · rcases key with h | ⟨tr, h, _⟩
    · exact Or.inl h
    · exact Or.inr ⟨tr, h⟩
  · intro tr htr
    rcases key with h | ⟨tr', h, hst, hfind⟩
    · rw [h] at htr
      have := congrArg List.length htr
      simp at this
    · rw [h] at htr
      have heq : tr' = tr := by
        have := List.append_cancel_left htr
        simpa using this
      subst heq
      have hne : tr'.Status ≠ PaidState := by
        rcases hst with h1 | h1 <;> rw [h1] <;> decide
      refine ⟨hst, hne, hfind, ?_⟩
      intro config2 providers2 newID2 r2 hpay
      have hfind2 : (PaymentCreate toLower config providers newID db r).db.firstTransaction
          r2.payment_id = .found tr' := by rw [hpay]; exact hfind
      have hr := PaymentRefund_unpaid_rejected config2 providers2 newID2 _ r2 tr' hfind2 hne
      refine ⟨hr.1, ?_, hr.2.2, hr.2.1⟩
      unfold Response.isClientError
      rw [hr.1]
      omega


/-! ## The pricing engine -/

namespace calculator

theorem roundDiv_eq_round (a b : Nat) (hb : 0 < b) :
    ((roundDiv a b : Nat) : ℤ) = round ((a : ℚ) / (b : ℚ)) := by
  have hbq : (b : ℚ) ≠ 0 := by exact_mod_cast hb.ne'
  have h : (a : ℚ) / (b : ℚ) + 1 / 2 = (((2 * a + b : ℕ) : ℤ) : ℚ) / (((2 * b : ℕ)) : ℚ) := by
    push_cast
    field_simp
    ring
  rw [round_eq, h, Rat.floor_intCast_div_natCast]
  unfold roundDiv
  push_cast
  rfl

theorem roundDiv_self_mul (p : Nat) : roundDiv (100 * p) 100 = p := by
  unfold roundDiv
  omega

theorem roundDiv_inclusive_le (p r : Nat) : roundDiv (100 * p) (100 + r) ≤ p := by
  unfold roundDiv
  rw [Nat.div_le_iff_le_mul_add_pred (by omega)]
  have : 2 * (100 + r) * p = 200 * p + 2 * (r * p) := by ring
  omega


theorem wrap64_of_lt (n : Nat) (h : n < 2 ^ 64) : wrap64 n = n := Nat.mod_eq_of_lt h

theorem wrap64_lt (n : Nat) : wrap64 n < 2 ^ 64 := Nat.mod_lt _ (by norm_num)

theorem sub64_lt (a b : Nat) : sub64 a b < 2 ^ 64 := Nat.mod_lt _ (by norm_num)

theorem sub64_of_le (a b : Nat) (ha : a < 2 ^ 64) (hb : b ≤ a) : sub64 a b = a - b := by
  unfold sub64
  rw [Nat.mod_eq_of_lt ha, Nat.mod_eq_of_lt (lt_of_le_of_lt hb ha)]
  have h1 : a + (2 ^ 64 - b) = (a - b) + 2 ^ 64 := by omega
  rw [h1, Nat.add_mod_right, Nat.mod_eq_of_lt (by omega)]

theorem sub64_of_lt (a b : Nat) (hb : b < 2 ^ 64) (hab : a < b) :
    sub64 a b = 2 ^ 64 - (b - a) := by
  unfold sub64
  rw [Nat.mod_eq_of_lt (lt_trans hab hb), Nat.mod_eq_of_lt hb]
  have h1 : a + (2 ^ 64 - b) = 2 ^ 64 - (b - a) := by omega
  rw [h1, Nat.mod_eq_of_lt (by omega)]

theorem sub64_cast (a b : Nat) : ((sub64 a b : ℕ) : ZMod (2 ^ 64)) = (a : ZMod (2 ^ 64)) - b := by
  unfold sub64
  have hle : b % 2 ^ 64 ≤ 2 ^ 64 := (Nat.mod_lt b (by norm_num)).le
  rw [ZMod.natCast_mod, Nat.cast_add, Nat.cast_sub hle, ZMod.natCast_mod, ZMod.natCast_mod,
    ZMod.natCast_self]
  ring

theorem wrap64_cast (n : Nat) : ((wrap64 n : ℕ) : ZMod (2 ^ 64)) = (n : ZMod (2 ^ 64)) := by
  unfold wrap64
  exact ZMod.natCast_mod n (2 ^ 64)

theorem computeTaxList_eq_sum (settings : Option Settings) (country : String)
    (l : List Item) :
    computeTaxList settings country l = (l.map (computeTax settings country)).sum := by
  induction l with
  | nil => simp [computeTaxList]
  | cons i rest ih => simp [computeTaxList, ih]

theorem CalculatePrice_Total_eq (settings : Option Settings) (country currency : String)
    (coupon : Option Coupon) (items : List Item) :
    (CalculatePrice settings country currency coupon items).Total =
      sub64 (wrap64 ((CalculatePrice settings country currency coupon items).Subtotal
        + (CalculatePrice settings country currency coupon items).Taxes))
        (CalculatePrice settings country currency coupon items).Discount := rfl

/-- C14: for every settings, country, currency, coupon and item list, the four fields of
the result of `CalculatePrice` are `uint64` values and `Total = Subtotal + Taxes − Discount`
holds in arithmetic modulo `2 ^ 64`; it is the difference of the natural numbers when the
discount does not exceed `Subtotal + Taxes` and that sum fits, and nothing guards against a
larger discount: the total then wraps around (a fixed discount of 200 on a single item of
100 gives the total `2 ^ 64 − 100`). -/
theorem CalculatePrice_total (settings : Option Settings) (country currency : String)
    (coupon : Option Coupon) (items : List Item) :
    (CalculatePrice settings country currency coupon items).Total < 2 ^ 64 ∧
    (((CalculatePrice settings country currency coupon items).Total : ℕ) : ZMod (2 ^ 64))
      = ((CalculatePrice settings country currency coupon items).Subtotal : ZMod (2 ^ 64))
        + (CalculatePrice settings country currency coupon items).Taxes
        - (CalculatePrice settings country currency coupon items).Discount ∧
    ((CalculatePrice settings country currency coupon items).Discount
        ≤ (CalculatePrice settings country currency coupon items).Subtotal
          + (CalculatePrice settings country currency coupon items).Taxes →
      (CalculatePrice settings country currency coupon items).Subtotal
          + (CalculatePrice settings country currency coupon items).Taxes < 2 ^ 64 →
      (CalculatePrice settings country currency coupon items).Total
        = (CalculatePrice settings country currency coupon items).Subtotal
          + (CalculatePrice settings country currency coupon items).Taxes
          - (CalculatePrice settings country currency coupon items).Discount) ∧
    CalculatePrice none "USA" "USD"
        (some (TestCoupon.toCoupon
          { itemType := "test", moreThan := 0, percentage := 0, fixed := 200 }))
        [.mk 100 "test" 0 []]
      = { Subtotal := 100, Discount := 200, Taxes := 0, Total := 2 ^ 64 - 100 } := by
  refine ⟨sub64_lt _ _, ?_, ?_, by decide⟩
  · rw [CalculatePrice_Total_eq, sub64_cast, wrap64_cast, Nat.cast_add]
  · intro hle hfit
    rw [CalculatePrice_Total_eq, wrap64_of_lt _ hfit]
    exact sub64_of_le _ _ hfit hle

/-- C14 on the case of `TestCouponWithNoVAT`: price 100, VAT 9 and a coupon of 10 percent
give subtotal 100, taxes 9, discount 10 and total 99. -/
theorem CalculatePrice_total_witness :
    CalculatePrice none "USA" "USD"
        (some (TestCoupon.toCoupon
          { itemType := "test", moreThan := 0, percentage := 10, fixed := 0 }))
        [.mk 100 "test" 9 []]
      = { Subtotal := 100, Discount := 10, Taxes := 9, Total := 99 } ∧
    (99 : ZMod (2 ^ 64)) = 100 + 9 - 10 := by
  have h := CalculatePrice_total none "USA" "USD"
    (some (TestCoupon.toCoupon
      { itemType := "test", moreThan := 0, percentage := 10, fixed := 0 }))
    [.mk 100 "test" 9 []]
  have hval : CalculatePrice none "USA" "USD"
      (some (TestCoupon.toCoupon
        { itemType := "test", moreThan := 0, percentage := 10, fixed := 0 }))
      [.mk 100 "test" 9 []]
      = { Subtotal := 100, Discount := 10, Taxes := 9, Total := 99 } := by decide
  refine ⟨hval, ?_⟩
  have h2 := h.2.1
  rw [hval] at h2
  exact_mod_cast h2


theorem computeTax_leaf (settings : Option Settings) (country : String) (p : Nat)
    (ty : String) (vat : Nat) :
    computeTax settings country (.mk p ty vat []) =
      rawTax (includeTaxes settings) p (taxRate settings country ty vat) := by
  simp [computeTax]

theorem CalculatePrice_single (settings : Option Settings) (country currency : String)
    (i : Item) :
    CalculatePrice settings country currency none [i] =
      { Subtotal := wrap64 (subtotalContribution settings country i)
        Discount := 0
        Taxes := wrap64 (computeTax settings country i)
        Total := sub64 (wrap64 (wrap64 (subtotalContribution settings country i)
          + wrap64 (computeTax settings country i))) 0 } := by
  simp [CalculatePrice, percentageDiscount, fixedDiscount, wrap64]

theorem sub64_zero (a : Nat) (ha : a < 2 ^ 64) : sub64 a 0 = a := by
  rw [sub64_of_le a 0 ha (Nat.zero_le _)]
  rfl

/-- C15: for a single item without sub-items, of price `p` (a `uint64`) and effective
rate `r`, and no coupon: under tax-exclusive settings, when `p` plus the tax fits in 64
bits, `Taxes = round(p·r/100)`, `Subtotal = p` and `Total = p + Taxes`; under tax-inclusive
settings `Taxes = p − round(p / (1 + r/100))`, `Subtotal = p − Taxes` and `Total = p`;
`round` is the rounding of rational numbers to the nearest integer. -/
theorem CalculatePrice_single_item (settings : Option Settings) (country currency : String)
    (p : Nat) (ty : String) (vat : Nat) (hp : p < 2 ^ 64) :
    (includeTaxes settings = false →
      p + roundDiv (p * taxRate settings country ty vat) 100 < 2 ^ 64 →
      (((CalculatePrice settings country currency none [.mk p ty vat []]).Taxes : ℕ) : ℤ)
        = round ((p : ℚ) * (taxRate settings country ty vat : ℚ) / 100) ∧
      (CalculatePrice settings country currency none [.mk p ty vat []]).Subtotal = p ∧
      (CalculatePrice settings country currency none [.mk p ty vat []]).Discount = 0 ∧
      (CalculatePrice settings country currency none [.mk p ty vat []]).Total
        = p + (CalculatePrice settings country currency none [.mk p ty vat []]).Taxes) ∧
    (includeTaxes settings = true →
      (((CalculatePrice settings country currency none [.mk p ty vat []]).Taxes : ℕ) : ℤ)
        = (p : ℤ) - round ((p : ℚ) / (1 + (taxRate settings country ty vat : ℚ) / 100)) ∧
      (CalculatePrice settings country currency none [.mk p ty vat []]).Subtotal
        = p - (CalculatePrice settings country currency none [.mk p ty vat []]).Taxes ∧
      (CalculatePrice settings country currency none [.mk p ty vat []]).Discount = 0 ∧
      (CalculatePrice settings country currency none [.mk p ty vat []]).Total = p) := by
  rw [CalculatePrice_single, computeTax_leaf]
  constructor
  · intro hex hfit
    have htax : roundDiv (p * taxRate settings country ty vat) 100 < 2 ^ 64 := by omega
    have hsub : subtotalContribution settings country (.mk p ty vat []) = p := by
      simp [subtotalContribution, hex, Item.PriceInLowestUnit]
    have hraw : rawTax (includeTaxes settings) p (taxRate settings country ty vat)
        = roundDiv (p * taxRate settings country ty vat) 100 := by
      simp [rawTax, hex]
    rw [hsub, hraw, wrap64_of_lt _ hp, wrap64_of_lt _ htax, wrap64_of_lt _ hfit,
      sub64_zero _ hfit]
    refine ⟨?_, rfl, rfl, rfl⟩
    rw [roundDiv_eq_round _ _ (by norm_num)]
    push_cast
    rfl
  · intro hin
    have hle := roundDiv_inclusive_le p (taxRate settings country ty vat)
    have htax : p - roundDiv (100 * p) (100 + taxRate settings country ty vat) < 2 ^ 64 := by
      omega
    have hraw : rawTax (includeTaxes settings) p (taxRate settings country ty vat)
        = p - roundDiv (100 * p) (100 + taxRate settings country ty vat) := by
      simp [rawTax, hin]
    have hsub : subtotalContribution settings country (.mk p ty vat [])
        = sub64 p (p - roundDiv (100 * p) (100 + taxRate settings country ty vat)) := by
      rw [subtotalContribution, computeTax_leaf, hraw]
      simp [hin, Item.PriceInLowestUnit]
    rw [hsub, hraw, wrap64_of_lt _ htax, sub64_of_le _ _ hp (Nat.sub_le _ _),
      wrap64_of_lt _ (by omega : p - (p - roundDiv (100 * p)
        (100 + taxRate settings country ty vat)) < 2 ^ 64)]
    have hsum : p - (p - roundDiv (100 * p) (100 + taxRate settings country ty vat))
        + (p - roundDiv (100 * p) (100 + taxRate settings country ty vat)) = p := by omega
    rw [hsum, wrap64_of_lt _ hp, sub64_zero _ hp]
    refine ⟨?_, rfl, rfl, rfl⟩
    rw [Nat.cast_sub hle, roundDiv_eq_round _ _ (by omega)]
    congr 2
    push_cast
    have h1 : (100 : ℚ) + (taxRate settings country ty vat : ℚ) ≠ 0 := by positivity
    have h2 : (1 : ℚ) + (taxRate settings country ty vat : ℚ) / 100 ≠ 0 := by positivity
    field_simp
    ring

/-- C15 on the cases of `TestFixedVAT` and `TestFixedVATWhenPricesIncludeTaxes`: price 100
at 9 percent gives `{100, 9, 0, 109}` under tax-exclusive and `{92, 8, 0, 100}` under
tax-inclusive settings. -/
theorem CalculatePrice_single_item_witness :
    (CalculatePrice none "USA" "USD" none [.mk 100 "test" 9 []]).Total
        = 100 + (CalculatePrice none "USA" "USD" none [.mk 100 "test" 9 []]).Taxes ∧
    CalculatePrice none "USA" "USD" none [.mk 100 "test" 9 []]
      = { Subtotal := 100, Discount := 0, Taxes := 9, Total := 109 } ∧
    (CalculatePrice (some { PricesIncludeTaxes := true, Taxes := [] }) "USA" "USD" none
        [.mk 100 "test" 9 []]).Total = 100 ∧
    CalculatePrice (some { PricesIncludeTaxes := true, Taxes := [] }) "USA" "USD" none
        [.mk 100 "test" 9 []]
      = { Subtotal := 92, Discount := 0, Taxes := 8, Total := 100 } :=
  ⟨((CalculatePrice_single_item none "USA" "USD" 100 "test" 9 (by decide)).1
      (by decide) (by decide)).2.2.2,
    by decide,
    ((CalculatePrice_single_item (some { PricesIncludeTaxes := true, Taxes := [] })
      "USA" "USD" 100 "test" 9 (by decide)).2 (by decide)).2.2.2,
    by decide⟩


theorem roundDiv_zero_left (b : Nat) (hb : 0 < b) : roundDiv 0 b = 0 := by
  unfold roundDiv
  rw [Nat.div_eq_zero_iff (by omega)]
  omega

theorem rawTax_zero_rate (inclusive : Bool) (p : Nat) : rawTax inclusive p 0 = 0 := by
  unfold rawTax
  cases inclusive
  · simp [roundDiv_zero_left]
  · simp [roundDiv_self_mul]

theorem AppliesTo_iff (t : Tax) (country productType : String) :
    t.AppliesTo country productType = true ↔
      productType ∈ t.ProductTypes ∧ country ∈ t.Countries := by
  simp [Tax.AppliesTo]

theorem taxRate_first_match (s : Settings) (country ty : String) (pre post : List Tax)
    (t : Tax) (hs : s.Taxes = pre ++ t :: post)
    (hpre : ∀ t' ∈ pre, ¬ (ty ∈ t'.ProductTypes ∧ country ∈ t'.Countries))
    (hty : ty ∈ t.ProductTypes) (hco : country ∈ t.Countries) :
    taxRate (some s) country ty 0 = t.Percentage := by
  have hnone : pre.find? (fun t => t.AppliesTo country ty) = none := by
    rw [List.find?_eq_none]
    intro t' ht' happ
    exact hpre t' ht' ((AppliesTo_iff t' country ty).1 happ)
  have ht : t.AppliesTo country ty = true := (AppliesTo_iff t country ty).2 ⟨hty, hco⟩
  simp [taxRate, hs, List.find?_append, hnone, List.find?_cons, ht]

theorem taxRate_no_match (s : Settings) (country ty : String)
    (hno : ∀ t ∈ s.Taxes, ¬ (ty ∈ t.ProductTypes ∧ country ∈ t.Countries)) :
    taxRate (some s) country ty 0 = 0 := by
  have hnone : s.Taxes.find? (fun t => t.AppliesTo country ty) = none := by
    rw [List.find?_eq_none]
    intro t' ht' happ
    exact hno t' ht' ((AppliesTo_iff t' country ty).1 happ)
  simp [taxRate, hnone]

theorem CalculatePrice_untaxed (settings : Option Settings) (country currency : String)
    (p : Nat) (ty : String) (hp : p < 2 ^ 64) (hrate : taxRate settings country ty 0 = 0) :
    CalculatePrice settings country currency none [.mk p ty 0 []]
      = { Subtotal := p, Discount := 0, Taxes := 0, Total := p } := by
  have htax : computeTax settings country (.mk p ty 0 []) = 0 := by
    rw [computeTax_leaf, hrate, rawTax_zero_rate]
  have hsub : subtotalContribution settings country (.mk p ty 0 []) = p := by
    unfold subtotalContribution
    rw [htax]
    split
    · exact sub64_zero p hp
    · rfl
  rw [CalculatePrice_single, htax, hsub]
  have h0 : wrap64 0 = 0 := rfl
  rw [h0, wrap64_of_lt _ hp, Nat.add_zero, wrap64_of_lt _ hp, sub64_zero _ hp]

/-- C16: for an item without sub-items and with fixed VAT 0, of price `p` (a `uint64`), the
rate `CalculatePrice` applies is the percentage of the first rule of `Settings.Taxes`, in
list order, whose product types contain the product type of the item and whose countries
contain the country of the request; it is 0 when no rule matches or the settings are
absent, and then, without coupon, `Subtotal = Total = p` and `Taxes = 0`. -/
theorem CalculatePrice_first_matching_rule (settings : Option Settings)
    (country currency : String) (p : Nat) (ty : String) (hp : p < 2 ^ 64) :
    (∀ (s : Settings) (pre post : List Tax) (t : Tax),
      settings = some s → s.Taxes = pre ++ t :: post →
      (∀ t' ∈ pre, ¬ (ty ∈ t'.ProductTypes ∧ country ∈ t'.Countries)) →
      ty ∈ t.ProductTypes → country ∈ t.Countries →
      taxRate settings country ty 0 = t.Percentage ∧
      (CalculatePrice settings country currency none [.mk p ty 0 []]).Taxes
        = wrap64 (rawTax s.PricesIncludeTaxes p t.Percentage)) ∧
    ((settings = none ∨
        ∃ s, settings = some s ∧
          ∀ t ∈ s.Taxes, ¬ (ty ∈ t.ProductTypes ∧ country ∈ t.Countries)) →
      taxRate settings country ty 0 = 0 ∧
      CalculatePrice settings country currency none [.mk p ty 0 []]
        = { Subtotal := p, Discount := 0, Taxes := 0, Total := p }) := by
  constructor
  · intro s pre post t hset hs hpre hty hco
    subst hset
    have hrate := taxRate_first_match s country ty pre post t hs hpre hty hco
    refine ⟨hrate, ?_⟩
    rw [CalculatePrice_single, computeTax_leaf, hrate]
    rfl
  · intro h
    have hrate : taxRate settings country ty 0 = 0 := by
      rcases h with h | ⟨s, hset, hno⟩
      · subst h; simp [taxRate]
      · subst hset; exact taxRate_no_match s country ty hno
    exact ⟨hrate, CalculatePrice_untaxed settings country currency p ty hp hrate⟩

/-- C16 on the cases of `TestCountryBasedVAT` and `TestNoTaxes`: one rule of 21 percent for
type `test` in `USA` gives `{100, 21, 0, 121}`; absent settings give `{100, 0, 0, 100}`. -/
theorem CalculatePrice_first_matching_rule_witness :
    taxRate (some { PricesIncludeTaxes := false
                    Taxes := [{ Percentage := 21, ProductTypes := ["test"],
                                Countries := ["USA"] }] }) "USA" "test" 0 = 21 ∧
    CalculatePrice (some { PricesIncludeTaxes := false
                           Taxes := [{ Percentage := 21, ProductTypes := ["test"],
                                       Countries := ["USA"] }] }) "USA" "USD" none
        [.mk 100 "test" 0 []]
      = { Subtotal := 100, Discount := 0, Taxes := 21, Total := 121 } ∧
    CalculatePrice none "USA" "USD" none [.mk 100 "test" 0 []]
      = { Subtotal := 100, Discount := 0, Taxes := 0, Total := 100 } :=
  ⟨((CalculatePrice_first_matching_rule
      (some { PricesIncludeTaxes := false
              Taxes := [{ Percentage := 21, ProductTypes := ["test"],
                          Countries := ["USA"] }] }) "USA" "USD" 100 "test" (by decide)).1
      _ [] [] { Percentage := 21, ProductTypes := ["test"], Countries := ["USA"] } rfl rfl
      (by simp) (by simp) (by simp)).1,
    by decide,
    ((CalculatePrice_first_matching_rule none "USA" "USD" 100 "test" (by decide)).2
      (Or.inl rfl)).2⟩


theorem computeTax_nested (settings : Option Settings) (country : String) (p : Nat)
    (ty : String) (vat : Nat) (child : Item) (children : List Item) :
    computeTax settings country (.mk p ty vat (child :: children)) =
      ((child :: children).map (computeTax settings country)).sum := by
  rw [← computeTaxList_eq_sum]
  simp [computeTax]

/-- C17: for an item with a non-empty list of taxable sub-items, the tax attributed to it
is the sum of the taxes computed for each sub-item by `computeTax` (a sub-item without
sub-items is taxed, and rounded, on its own price at its own rate); the price, the fixed
VAT and the product type of the item itself do not enter its tax; and under tax-exclusive
pricing its subtotal contribution is its own price `p` (a `uint64`), so that alone and
without coupon it gives `Subtotal = p` and as taxes the sum over the sub-items. -/
theorem computeTax_sub_items (settings : Option Settings) (country currency : String)
    (p : Nat) (ty : String) (vat : Nat) (child : Item) (children : List Item)
    (hp : p < 2 ^ 64) :
    computeTax settings country (.mk p ty vat (child :: children)) =
      ((child :: children).map (computeTax settings country)).sum ∧
    (∀ (q : Nat) (ty2 : String) (vat2 : Nat),
      computeTax settings country (.mk q ty2 vat2 []) =
        rawTax (includeTaxes settings) q (taxRate settings country ty2 vat2)) ∧
    (∀ (p' : Nat) (ty' : String) (vat' : Nat),
      computeTax settings country (.mk p' ty' vat' (child :: children)) =
        computeTax settings country (.mk p ty vat (child :: children))) ∧
    (includeTaxes settings = false →
      subtotalContribution settings country (.mk p ty vat (child :: children)) = p ∧
      (CalculatePrice settings country currency none
        [.mk p ty vat (child :: children)]).Subtotal = p ∧
      (CalculatePrice settings country currency none
        [.mk p ty vat (child :: children)]).Taxes =
        wrap64 ((child :: children).map (computeTax settings country)).sum) := by
  refine ⟨computeTax_nested settings country p ty vat child children,
    fun q ty2 vat2 => computeTax_leaf settings country q ty2 vat2, fun p' ty' vat' => ?_,
    fun hex => ?_⟩
  · rw [computeTax_nested, computeTax_nested]
  · have hsub : subtotalContribution settings country (.mk p ty vat (child :: children))
        = p := by
      simp [subtotalContribution, hex, Item.PriceInLowestUnit]
    refine ⟨hsub, ?_, ?_⟩
    · rw [CalculatePrice_single, hsub]
      exact wrap64_of_lt p hp
    · rw [CalculatePrice_single, computeTax_nested]

/-- C17 on the case of `TestPricingItems`: an item of price 100 with the sub-items
(80, book) and (20, ebook), books at 7 and ebooks at 21 percent in `DE`, gives
`{100, 10, 0, 110}`: the taxes are 6 + 4. -/
theorem computeTax_sub_items_witness :
    computeTax (some { PricesIncludeTaxes := false
                       Taxes := [{ Percentage := 7, ProductTypes := ["book"],
                                   Countries := ["DE"] },
                                 { Percentage := 21, ProductTypes := ["ebook"],
                                   Countries := ["DE"] }] }) "DE"
        (.mk 100 "book" 0 [.mk 80 "book" 0 [], .mk 20 "ebook" 0 []]) = 6 + (4 + 0) ∧
    CalculatePrice (some { PricesIncludeTaxes := false
                           Taxes := [{ Percentage := 7, ProductTypes := ["book"],
                                       Countries := ["DE"] },
                                     { Percentage := 21, ProductTypes := ["ebook"],
                                       Countries := ["DE"] }] }) "DE" "USD" none
        [.mk 100 "book" 0 [.mk 80 "book" 0 [], .mk 20 "ebook" 0 []]]
      = { Subtotal := 100, Discount := 0, Taxes := 10, Total := 110 } :=
  ⟨(computeTax_sub_items
      (some { PricesIncludeTaxes := false
              Taxes := [{ Percentage := 7, ProductTypes := ["book"], Countries := ["DE"] },
                        { Percentage := 21, ProductTypes := ["ebook"],
                          Countries := ["DE"] }] }) "DE" "USD" 100 "book" 0
      (.mk 80 "book" 0 []) [.mk 20 "ebook" 0 []] (by decide)).1.trans (by decide),
    by decide⟩

/-- C18: without coupon the discount is 0; with a coupon the discount is, reduced to
`uint64`, the sum over the top-level items for which the coupon is valid for the product
type and for (currency, price) of `round(price × percentageDiscount / 100)`, plus the fixed
discount once when the coupon applies to some item; `round` is the rounding of rational
numbers to the nearest integer; and the discount is the same for all settings, whether
or not prices include taxes. -/
theorem CalculatePrice_percentage_discount (settings : Option Settings)
    (country currency : String) (items : List Item) :
    (CalculatePrice settings country currency none items).Discount = 0 ∧
    (∀ c : Coupon,
      (CalculatePrice settings country currency (some c) items).Discount =
        wrap64
          (((items.filter (fun i =>
              c.ValidForType i.ProductType && c.ValidForPrice currency i.PriceInLowestUnit)).map
              (fun i => roundDiv (i.PriceInLowestUnit * c.PercentageDiscount) 100)).sum
            + (if items.any (fun i =>
                c.ValidForType i.ProductType && c.ValidForPrice currency i.PriceInLowestUnit)
               then c.FixedDiscount else 0))) ∧
    (∀ price pct : Nat,
      ((roundDiv (price * pct) 100 : ℕ) : ℤ) = round ((price : ℚ) * (pct : ℚ) / 100)) ∧
    (∀ (settings' : Option Settings) (coupon : Option Coupon),
      (CalculatePrice settings' country currency coupon items).Discount =
        (CalculatePrice settings country currency coupon items).Discount) := by
  refine ⟨rfl, fun c => rfl, fun price pct => ?_, fun _ _ => rfl⟩
  rw [roundDiv_eq_round _ _ (by norm_num)]
  push_cast
  rfl

/-- C18 on the cases of `TestCouponWithNoVAT` and
`TestCouponWithNoVATWhenPRiceIncludeTaxes`: price 100, VAT 9 and a coupon of 10 percent
give the discount 10 under both settings, with total 99 (exclusive) and 90 (inclusive). -/
theorem CalculatePrice_percentage_discount_witness :
    (CalculatePrice (some { PricesIncludeTaxes := true, Taxes := [] }) "USA" "USD"
        (some (TestCoupon.toCoupon
          { itemType := "test", moreThan := 0, percentage := 10, fixed := 0 }))
        [.mk 100 "test" 9 []]).Discount
      = (CalculatePrice none "USA" "USD"
        (some (TestCoupon.toCoupon
          { itemType := "test", moreThan := 0, percentage := 10, fixed := 0 }))
        [.mk 100 "test" 9 []]).Discount ∧
    CalculatePrice none "USA" "USD"
        (some (TestCoupon.toCoupon
          { itemType := "test", moreThan := 0, percentage := 10, fixed := 0 }))
        [.mk 100 "test" 9 []]
      = { Subtotal := 100, Discount := 10, Taxes := 9, Total := 99 } ∧
    CalculatePrice (some { PricesIncludeTaxes := true, Taxes := [] }) "USA" "USD"
        (some (TestCoupon.toCoupon
          { itemType := "test", moreThan := 0, percentage := 10, fixed := 0 }))
        [.mk 100 "test" 9 []]
      = { Subtotal := 92, Discount := 10, Taxes := 8, Total := 90 } :=
  ⟨(CalculatePrice_percentage_discount none "USA" "USD" [.mk 100 "test" 9 []]).2.2.2
      (some { PricesIncludeTaxes := true, Taxes := [] })
      (some (TestCoupon.toCoupon
        { itemType := "test", moreThan := 0, percentage := 10, fixed := 0 })),
    by decide, by decide⟩


end calculator

end Gocommerce
